import Mathlib

/-!
# pastyclient-browser: a shallow embedding of `src/pastyclient-browser.js`

The client is a JavaScript object whose methods build one jQuery `$.ajax` request each and
register a `done` and a `fail` closure on it.  The embedding is explicit state passing:

* `JSVal` is the universe of JavaScript values the client handles (arguments, response bodies,
  the values handed to continuations);
* `World` holds the client object, the global variables the source writes without `var` and reads
  again later (`callback`, `error`), the requests in flight, and two logs: the invocations of the
  handler given to `HTTPRequest`, and the invocations of caller-supplied continuations;
* every method of the source is a function `World → Result`, where a `Result` is the exception
  thrown (if any) together with the world at that point;
* the browser functions the source calls (`$.parseJSON`, `btoa`, `JSON.stringify`, the source text
  of a function value) and the behaviour of the caller's functions are the fields of `Env`.
-/

namespace Pasty

/-! ## JavaScript values -/

/-- JavaScript values.  `num n` is the number with integer value `n`.  A function value (a
caller-supplied continuation) is identified by `id` and comes in two descriptions: `func id` is a
function that returns normally from every call, `proc id` is a function of which nothing is
assumed, whose calls return or throw as `Env.raises` tells.  `obj fields` is a plain data object
with own properties `fields` (the first binding of a name is the property); `arr items props` is an
array with elements `items` and further own properties `props`.  Objects are plain data: they do
not redefine the methods of `Object.prototype`. -/
inductive JSVal where
  | undefined
  | null
  | bool (b : Bool)
  | num (n : Int)
  | str (s : String)
  | func (id : Nat)
  | proc (id : Nat)
  | obj (fields : List (String × JSVal))
  | arr (items : List JSVal) (props : List (String × JSVal))

/-- Exceptions the source can raise. -/
inductive JSError where
  /-- The statement `throw new Error(msg)`. -/
  | error (msg : String)
  /-- Property access on `null` or `undefined`, or a call of a value that is not a function. -/
  | typeError
  /-- Reading an identifier that was never declared or assigned. -/
  | referenceError (name : String)
  /-- The exception of `btoa` on a string with a character outside Latin-1. -/
  | invalidCharacter
  deriving DecidableEq

/-- Browser functions used by the source. -/
structure Env where
  /-- The call `$.parseJSON(data)`: `none` when it throws. -/
  parseJSON : JSVal → Option JSVal
  /-- The call `btoa(s)`: `none` when it throws. -/
  btoa : String → Option String
  /-- The call `JSON.stringify(data)` on the request bodies the client builds. -/
  stringify : JSVal → String
  /-- Source text of a function value, which is what string concatenation yields for it. -/
  funcSrc : Nat → String
  /-- What a call of the function `proc id` with `(err, result)` does: `none` when it returns, the
  exception when it throws.  The caller's functions do not call back into the client. -/
  raises : Nat → JSVal → JSVal → Option JSError

namespace JSVal

/-- The `typeof` operator. -/
def typeOf : JSVal → String
  | undefined => "undefined"
  | null => "object"
  | bool _ => "boolean"
  | num _ => "number"
  | str _ => "string"
  | func _ => "function"
  | proc _ => "function"
  | obj _ => "object"
  | arr _ _ => "object"

/-- Truthiness, as tested by `if (v)`, `v ? a : b` and `v || w`. -/
def truthy : JSVal → Bool
  | undefined => false
  | null => false
  | bool b => b
  | num n => n != 0
  | str s => s != ""
  | func _ => true
  | proc _ => true
  | obj _ => true
  | arr _ _ => true

/-- The expression `a || b`. -/
def orElse (a b : JSVal) : JSVal := if a.truthy then a else b

/-- The test `v === null`. -/
def isNull : JSVal → Bool
  | null => true
  | _ => false

/-- The test `v === false`. -/
def isFalse : JSVal → Bool
  | bool false => true
  | _ => false

/-- The test `v === null || v === undefined` (also `v == null`). -/
def isNullish : JSVal → Bool
  | null => true
  | undefined => true
  | _ => false

/-- The test `v === true || v === false`. -/
def isBoolean : JSVal → Bool
  | bool _ => true
  | _ => false

/-- The test `v === n` for a number literal `n`. -/
def isNum (n : Int) : JSVal → Bool
  | num m => m == n
  | _ => false

/-- The test `v === s` for a string literal `s` (also the `case` of a `switch`). -/
def isStr (s : String) : JSVal → Bool
  | str t => t == s
  | _ => false

mutual
/-- String conversion, as performed by `"..." + v` and by the use of `v` as a property name.
Numbers print in decimal (integer values below 10^21 in magnitude). -/
def toStr (src : Nat → String) : JSVal → String
  | undefined => "undefined"
  | null => "null"
  | bool true => "true"
  | bool false => "false"
  | num n => toString n
  | str s => s
  | func k => src k
  | proc k => src k
  | obj _ => "[object Object]"
  | arr items _ => joinStr src items
termination_by structural v => v
/-- String conversion of an array: `Array.prototype.join` with a comma, where `null` and
`undefined` elements print as the empty string. -/
def joinStr (src : Nat → String) : List JSVal → String
  | [] => ""
  | x :: rest =>
    (match x with
      | undefined => ""
      | null => ""
      | v => toStr src v)
    ++ (match rest with
      | [] => ""
      | _ :: _ => ",")
    ++ joinStr src rest
termination_by structural xs => xs
end

/-- The identifier of a function value. -/
def functionId : JSVal → Option Nat
  | func k => some k
  | proc k => some k
  | _ => none

/-- Whether `k` is the decimal form of an index below `n`. -/
def isIndexBelow (k : String) (n : Nat) : Bool :=
  (List.range n).any (fun i => toString i == k)

/-- Reading `v.k` for a property name `k` that is neither `length` nor an index (the client reads
`payload`, `items`, `_id`, `expires`, `error`, `code`, `ssl`, `username`, `password`): a
`TypeError` on `null` and `undefined`, the own property if there is one, `undefined` otherwise. -/
def getProp (v : JSVal) (k : String) : Except JSError JSVal :=
  match v with
  | undefined => .error .typeError
  | null => .error .typeError
  | obj fields => .ok ((fields.lookup k).getD undefined)
  | arr _ props => .ok ((props.lookup k).getD undefined)
  | _ => .ok undefined

/-- The call `v.hasOwnProperty(k)`: a `TypeError` on `null` and `undefined`.  Strings and arrays
own `length` and their indices; own properties of function values are not modelled. -/
def hasOwnProperty (v : JSVal) (k : String) : Except JSError Bool :=
  match v with
  | undefined => .error .typeError
  | null => .error .typeError
  | obj fields => .ok (fields.lookup k).isSome
  | arr items props => .ok ((props.lookup k).isSome || k == "length" || isIndexBelow k items.length)
  | str s => .ok (k == "length" || isIndexBelow k s.length)
  | _ => .ok false

/-- Replace or add a binding in a property list. -/
def setField (k : String) (x : JSVal) : List (String × JSVal) → List (String × JSVal)
  | [] => [(k, x)]
  | (k', y) :: rest => if k' == k then (k, x) :: rest else (k', y) :: setField k x rest

/-- The assignment `v.k = x` (for `k` neither `length` nor an index) on a value `v` that is not
`null` or `undefined`: it is silently ignored on primitive values. -/
def setProp (v : JSVal) (k : String) (x : JSVal) : JSVal :=
  match v with
  | obj fields => obj (setField k x fields)
  | arr items props => arr items (setField k x props)
  | w => w

end JSVal

open JSVal

/-- Reading `v.k` on a value `v` known not to be `null` or `undefined`. -/
def getPropD (v : JSVal) (k : String) : JSVal :=
  match v.getProp k with
  | .ok x => x
  | .error _ => undefined

/-! ## The client object and the world around it -/

/-- The authentication object built by the operations: `none` is a property that is absent. -/
structure AuthData where
  user : Option JSVal
  password : Option JSVal
  token : Option JSVal

/-- The target object given to the constructor; the operations store the path in `uri`. -/
structure Target where
  host : JSVal
  port : JSVal
  ssl : JSVal
  username : JSVal
  password : JSVal
  uri : JSVal

/-- The fields of a `PastyClient` instance. -/
structure PastyClient where
  Token : JSVal
  target : Target
  ssl : JSVal
  username : JSVal
  password : JSVal
  cachedClipboard : JSVal

/-- Value of `PastyClient.prototype.__version`. -/
def version : String := "0.1.0"

/-- Value of `PastyClient.prototype.APIVERSION`. -/
def APIVERSION : String := "2.1.0"

/-- The constructor `PastyClient = function(target)` (lines 23-30). -/
def PastyClient.new (target : Target) : PastyClient :=
  { Token := obj []
    target := target
    ssl := if target.ssl.isBoolean then target.ssl else bool false
    username := target.username.orElse (str "")
    password := target.password.orElse (str "")
    cachedClipboard := obj [] }

/-- The factory `pastyclient(host, port, options)` (lines 574-587), without the loading of jQuery
into the page. -/
def pastyclient (host port options : JSVal) : PastyClient :=
  let options := options.orElse (obj [])
  let options := options.setProp "ssl" ((getPropD options "ssl").orElse (bool false))
  let options := options.setProp "username" ((getPropD options "username").orElse (str ""))
  let options := options.setProp "password" ((getPropD options "password").orElse (str ""))
  PastyClient.new
    { host := host
      port := port
      ssl := getPropD options "ssl"
      username := getPropD options "username"
      password := getPropD options "password"
      uri := undefined }

/-- The method `getUsername` (lines 42-44). -/
def getUsername (client : PastyClient) : JSVal := client.username

/-- The closures handed to `HTTPRequest` as its `callback`, one per operation.  A closure of an
operation that declares `callback` as a parameter captures the continuation; the closures of
`listItems`, `getItem`, `deleteItem`, `addItem` and `getUser`, which assign `callback` without
`var`, capture nothing and read the global variable when they run. -/
inductive Handler where
  | getServerVersion (callback : JSVal)
  | listItems
  | getItem
  | deleteItem
  | addItem
  | requestToken (callback : JSVal)
  | checkTokenValidity (callback : JSVal)
  | checkUsernameAvailable (callback : JSVal)
  | getUser
  | updateUserPassword (callback : JSVal)
  | deleteUser (callback : JSVal)

/-- The `headers` of a request (lines 502-508, 510). -/
structure Headers where
  acceptVersion : String
  contentType : String
  contentLength : Int
  userAgent : String
  cache : Bool
  authorization : Option String

/-- The `options` object handed to `$.ajax` (lines 500-524); `none` is a property never set. -/
structure AjaxOptions where
  url : String
  headers : Headers
  type : Option String
  data : Option String

/-- A request in flight: what was handed to the transport, and the handler its `done` and `fail`
closures will call. -/
structure Pending where
  options : AjaxOptions
  callback : Handler

/-- One invocation of a caller-supplied continuation `func continuation` with `(err, result)`. -/
structure Delivery where
  continuation : Nat
  err : JSVal
  result : JSVal

/-- One invocation of the handler given to `HTTPRequest` with `(err, answer)`. -/
structure Handled where
  handler : Handler
  err : JSVal
  answer : JSVal

/-- The global variables that are assigned without `var` in one place and read at a later time in
another: `callback` (lines 87, 128, 167, 205, 333) and `error` (lines 549-558, read at line 278).
`none` is a variable never assigned.  The other implicit globals (`target`, `authData`, `answer`,
`err`) are read back only in the statement that follows their assignment and are kept local. -/
structure Globals where
  callback : Option JSVal
  error : Option JSVal

/-- The state: the client, the globals, the requests in flight, and the logs. -/
structure World where
  client : PastyClient
  globals : Globals
  pending : List Pending
  handled : List Handled
  delivered : List Delivery
  console : List JSVal

/-- Outcome of running a piece of the source: the exception thrown, if any, and the state. -/
abbrev Result := Option JSError × World

/-- The world right after the construction of `client`: nothing assigned, sent or delivered. -/
def World.fresh (client : PastyClient) : World :=
  { client := client
    globals := { callback := none, error := none }
    pending := []
    handled := []
    delivered := []
    console := [] }

/-- The assignment `target = this.target; target.uri = uri`. -/
def World.setUri (w : World) (uri : JSVal) : World :=
  { w with client := { w.client with target := { w.client.target with uri := uri } } }

/-- The assignment `callback = f` to the global variable. -/
def World.setCallback (w : World) (f : JSVal) : World :=
  { w with globals := { w.globals with callback := some f } }

/-- The argument `arguments[i]`. -/
def arg (args : List JSVal) (i : Nat) : JSVal := args.getD i undefined

/-- The argument `arguments[arguments.length-1]`; it is `undefined` when there is none. -/
def lastArg (args : List JSVal) : JSVal := arg args (args.length - 1)

/-- What the call of the function value `f` with `(err, result)` raises: nothing for a `func`,
what `Env.raises` tells for a `proc`. -/
def Env.raisesOn (env : Env) (f err result : JSVal) : Option JSError :=
  match f with
  | proc k => env.raises k err result
  | _ => none

/-- Calling the value `f` with `(err, result)`.  A function value is a continuation of the caller:
the call is logged, and it returns or throws.  Anything else is a `TypeError`. -/
def callFunction (env : Env) (f err result : JSVal) (w : World) : Result :=
  match f with
  | func k => (none, { w with delivered := w.delivered ++ [⟨k, err, result⟩] })
  | proc k => (env.raises k err result, { w with delivered := w.delivered ++ [⟨k, err, result⟩] })
  | _ => (some .typeError, w)

/-- The call `callback(err, result)` where `callback` is the global variable. -/
def callGlobal (env : Env) (err result : JSVal) (w : World) : Result :=
  match w.globals.callback with
  | none => (some (.referenceError "callback"), w)
  | some f => callFunction env f err result w

/-- Evaluate `v.k` and continue with its value, or stop with the exception. -/
def withProp (v : JSVal) (k : String) (w : World) (f : JSVal → Result) : Result :=
  match v.getProp k with
  | .error e => (some e, w)
  | .ok x => f x

/-- Evaluate `v.hasOwnProperty(k)` and continue with its value, or stop with the exception. -/
def withOwn (v : JSVal) (k : String) (w : World) (f : Bool → Result) : Result :=
  match v.hasOwnProperty k with
  | .error e => (some e, w)
  | .ok b => f b

/-! ## The closures given to `HTTPRequest` -/

/-- The closure of `getServerVersion` (lines 57-64). -/
def getServerVersionHandler (env : Env) (callback err answer : JSVal) (w : World) : Result :=
  if err.isNull then
    withProp answer "payload" w fun payload =>
    callFunction env callback null payload w
  else callFunction env callback err null w

/-- The closure of `listItems` (lines 90-103). -/
def listItemsHandler (env : Env) (err answer : JSVal) (w : World) : Result :=
  if err.isNull then
    withProp answer "payload" w fun payload =>
    if payload.truthy then
      withProp payload "items" w fun items =>
      callGlobal env null items w
    else
      callGlobal env (obj [("http_code", num 500), ("message", str "Did not receive items")]) null w
  else callGlobal env err null w

/-- The closure of `getItem` (lines 132-142). -/
def getItemHandler (env : Env) (err answer : JSVal) (w : World) : Result :=
  if err.isNull then
    withProp answer "payload" w fun payload =>
    if payload.truthy then callGlobal env null payload w
    else
      withProp answer "error" w fun error =>
      callGlobal env error null w
  else callGlobal env err null w

/-- The closure of `deleteItem` (lines 170-180). -/
def deleteItemHandler (env : Env) (err answer : JSVal) (w : World) : Result :=
  if err.isNull then
    withProp answer "code" w fun code =>
    if code.isNum 200 then callGlobal env null (bool true) w
    else
      withProp answer "error" w fun error =>
      callGlobal env error (bool false) w
  else callGlobal env err (bool false) w

/-- The closure of `addItem` (lines 210-220). -/
def addItemHandler (env : Env) (err answer : JSVal) (w : World) : Result :=
  if err.isNull then
    withProp answer "payload" w fun payload =>
    if payload.truthy then
      withProp payload "_id" w fun id =>
      callGlobal env null id w
    else
      withProp answer "error" w fun error =>
      callGlobal env error null w
  else callGlobal env err (bool false) w

/-- The closure of `requestToken` (lines 238-250); it stores the token in `self.Token`. -/
def requestTokenHandler (env : Env) (callback err answer : JSVal) (w : World) : Result :=
  if err.isNull then
    withProp answer "payload" w fun payload =>
    if payload.truthy then
      callFunction env callback null payload { w with client := { w.client with Token := payload } }
    else
      withProp answer "error" w fun error =>
      callFunction env callback error null w
  else callFunction env callback err null w

/-- The closure of `checkTokenValidity` (lines 267-290).  The argument of `hasOwnProperty` at
line 278 is the identifier `error`, a global variable. -/
def checkTokenValidityHandler (env : Env) (callback err answer : JSVal) (w : World) : Result :=
  if err.isNull then
    withProp answer "code" w fun code =>
    if code.isNum 200 then
      withOwn answer "payload" w fun hasPayload =>
      if hasPayload then
        withProp answer "payload" w fun payload =>
        withOwn payload "expires" w fun hasExpires =>
        if hasExpires then
          withProp payload "expires" w fun expires =>
          callFunction env callback null expires w
        else (some (.error "Server did not answer according to API"), w)
      else (some (.error "Server did not answer according to API"), w)
    else
      match w.globals.error with
      | none => (some (.referenceError "error"), w)
      | some error =>
        withOwn answer (toStr env.funcSrc error) w fun hasError =>
        if hasError then
          withProp answer "error" w fun e =>
          callFunction env callback e null w
        else
          callFunction env callback
            (obj [("http_code", num 500), ("message", str "An unknown error occured")]) null w
  else callFunction env callback err null w

/-- The closure of `checkUsernameAvailable` (lines 304-311). -/
def checkUsernameAvailableHandler (env : Env) (callback err answer : JSVal) (w : World) : Result :=
  if err.isNull then
    withProp answer "payload" w fun payload =>
    callFunction env callback null payload w
  else callFunction env callback err null w

/-- The closure of `getUser` (lines 336-346). -/
def getUserHandler (env : Env) (err answer : JSVal) (w : World) : Result :=
  if err.isNull then
    withProp answer "code" w fun code =>
    if code.isNum 200 then
      withProp answer "payload" w fun payload =>
      callGlobal env null payload w
    else
      withProp answer "error" w fun error =>
      callGlobal env error null w
  else callGlobal env err null w

/-- The closure of `updateUserPassword` (lines 369-379). -/
def updateUserPasswordHandler (env : Env) (callback err answer : JSVal) (w : World) : Result :=
  if err.isNull then
    withProp answer "code" w fun code =>
    if code.isNum 200 then callFunction env callback null (bool true) w
    else
      withProp answer "error" w fun error =>
      callFunction env callback error (bool false) w
  else callFunction env callback err (bool false) w

/-- The closure of `deleteUser` (lines 397-407). -/
def deleteUserHandler (env : Env) (callback err answer : JSVal) (w : World) : Result :=
  if err.isNull then
    withProp answer "code" w fun code =>
    if code.isNum 200 then callFunction env callback null (bool true) w
    else
      withProp answer "error" w fun error =>
      callFunction env callback error (bool false) w
  else callFunction env callback err (bool false) w

/-- Running a closure on `(err, answer)`. -/
def Handler.run (env : Env) (h : Handler) (err answer : JSVal) (w : World) : Result :=
  match h with
  | .getServerVersion callback => getServerVersionHandler env callback err answer w
  | .listItems => listItemsHandler env err answer w
  | .getItem => getItemHandler env err answer w
  | .deleteItem => deleteItemHandler env err answer w
  | .addItem => addItemHandler env err answer w
  | .requestToken callback => requestTokenHandler env callback err answer w
  | .checkTokenValidity callback => checkTokenValidityHandler env callback err answer w
  | .checkUsernameAvailable callback => checkUsernameAvailableHandler env callback err answer w
  | .getUser => getUserHandler env err answer w
  | .updateUserPassword callback => updateUserPasswordHandler env callback err answer w
  | .deleteUser callback => deleteUserHandler env callback err answer w

/-- The call `callback(err, answer)` inside `HTTPRequest`: the invocation is logged, then the
closure runs. -/
def Handler.invoke (env : Env) (h : Handler) (err answer : JSVal) (w : World) : Result :=
  h.run env err answer { w with handled := w.handled ++ [⟨h, err, answer⟩] }

/-! ## `HTTPRequest` and the verb helpers -/

/-- Reading a property of the authentication object. -/
def propOf (p : Option JSVal) : JSVal := p.getD undefined

/-- Lines 492-494 of `HTTPRequest`: a `null` object becomes an empty one, and a `user` or
`password` that is `null` or `undefined` is replaced by the value configured on the client. -/
def resolveAuth (client : PastyClient) (authData : Option AuthData) : AuthData :=
  let a : AuthData := authData.getD { user := none, password := none, token := none }
  let a : AuthData := if (propOf a.user).isNullish then { a with user := some client.username } else a
  if (propOf a.password).isNullish then { a with password := some client.password } else a

/-- Lines 496-498 of `HTTPRequest`: the value of `bAuthData` (`none` is `undefined`), or `none`
when `btoa` throws. -/
def basicAuth (env : Env) (a : AuthData) : Option (Option String) :=
  if (propOf a.user).truthy then
    (env.btoa (toStr env.funcSrc (propOf a.user) ++ ":" ++ toStr env.funcSrc (propOf a.password))).map
      fun b => some ("Basic " ++ b)
  else some none

/-- Lines 500-524 of `HTTPRequest`: the options handed to `$.ajax`. -/
def buildOptions (env : Env) (target : Target) (method : String) (bAuthData : Option String)
    (data : JSVal) : AjaxOptions :=
  let url := (if target.ssl.truthy then "https://" else "http://")
    ++ toStr env.funcSrc target.host ++ ":" ++ toStr env.funcSrc target.port
    ++ toStr env.funcSrc target.uri
  let headers : Headers :=
    { acceptVersion := APIVERSION
      contentType := "application/json; charset=utf-8"
      contentLength := 0
      userAgent := "pastyclient-browser " ++ version
      cache := false
      authorization := bAuthData }
  if method = "POST" then
    { url := url, headers := headers, type := some "POST", data := some (env.stringify data) }
  else if method = "PUT" then
    { url := url, headers := headers, type := some "PUT", data := some (env.stringify data) }
  else if method = "GET" then
    { url := url, headers := headers, type := some "GET", data := none }
  else if method = "DELETE" then
    { url := url, headers := headers, type := some "DELETE", data := none }
  else { url := url, headers := headers, type := none, data := none }

/-- The method `HTTPRequest` up to and including `$.ajax(options)` (lines 490-534): the request is
built and put in flight with the closures that will call `callback`. -/
def HTTPRequest (env : Env) (target : Target) (method : String) (authData : Option AuthData)
    (data : JSVal) (callback : Handler) (w : World) : Result :=
  match basicAuth env (resolveAuth w.client authData) with
  | none => (some .invalidCharacter, w)
  | some bAuthData =>
    (none, { w with pending := w.pending ++ [⟨buildOptions env target method bAuthData data, callback⟩] })

/-- The method `HTTPGet` (lines 421-425). -/
def HTTPGet (env : Env) (target : Target) (authData : Option AuthData) (callback : Handler)
    (w : World) : Result :=
  HTTPRequest env target "GET" authData null callback w

/-- The method `HTTPPost` (lines 439-442). -/
def HTTPPost (env : Env) (target : Target) (authData : Option AuthData) (data : JSVal)
    (callback : Handler) (w : World) : Result :=
  HTTPRequest env target "POST" authData data callback w

/-- The method `HTTPPut` (lines 456-459). -/
def HTTPPut (env : Env) (target : Target) (authData : Option AuthData) (data : JSVal)
    (callback : Handler) (w : World) : Result :=
  HTTPRequest env target "PUT" authData data callback w

/-- The method `HTTPDelete` (lines 472-476). -/
def HTTPDelete (env : Env) (target : Target) (authData : Option AuthData) (callback : Handler)
    (w : World) : Result :=
  HTTPRequest env target "DELETE" authData null callback w

/-- The error object built when a text body does not parse (line 543). -/
def invalidJSON : JSVal :=
  obj [("code", str "UnknownError"), ("message", str "Invalid JSON received")]

/-- The closure given to `.done` (lines 535-547).  The `try` block encloses the call of
`callback`, so an exception raised by the handler is caught too and answered by `callback(err)`. -/
def done (env : Env) (callback : Handler) (data : JSVal) (w : World) : Result :=
  if typeOf data = "object" then callback.invoke env null data w
  else
    match env.parseJSON data with
    | none => callback.invoke env invalidJSON undefined w
    | some answer =>
      match callback.invoke env null answer w with
      | (none, w1) => (none, w1)
      | (some _, w1) => callback.invoke env invalidJSON undefined w1

/-- The fields of the `jqxhr` object that the `fail` closure reads. -/
structure JqXHR where
  responseJSON : JSVal
  status : JSVal

/-- The closure given to `.fail` (lines 548-560); `error` is the global variable. -/
def fail (env : Env) (callback : Handler) (jqxhr : JqXHR) (err : JSVal) (w : World) : Result :=
  let error := obj [("code", str "UnknownError"), ("message", str "Unknown error occured")]
  let error := if err.isStr "Unauthorized"
    then obj [("code", str "UnauthorizedError"), ("message", str "Login failed")] else error
  let w := if err.isStr "Unauthorized" then w else { w with console := w.console ++ [err] }
  let error := if jqxhr.responseJSON.isNullish then error else jqxhr.responseJSON
  let error := error.setProp "statusCode" jqxhr.status
  let w := { w with globals := { w.globals with error := some error } }
  callback.invoke env error null w

/-! ## The public operations -/

/-- The error thrown by the operations that look for the continuation among their arguments. -/
def usageError : JSError := .error "Last argument is not a callback function."

/-- The method `getServerVersion` (lines 54-65). -/
def getServerVersion (env : Env) (callback : JSVal) (w : World) : Result :=
  let w := w.setUri (str "/server/version")
  HTTPGet env w.client.target none (.getServerVersion callback) w

/-- The object `authData` that `listItems` builds from its arguments (lines 79-85). -/
def listItemsAuthData (args : List JSVal) : AuthData :=
  if args.length ≥ 3 then { user := some (arg args 0), password := some (arg args 1), token := none }
  else if typeOf (arg args 0) ≠ "function" then
    { user := none, password := none, token := some (arg args 0) }
  else { user := none, password := none, token := none }

/-- The method `listItems` (lines 78-104). -/
def listItems (env : Env) (args : List JSVal) (w : World) : Result :=
  let authData : AuthData := listItemsAuthData args
  if typeOf (lastArg args) ≠ "function" then (some usageError, w)
  else
    let w := w.setCallback (lastArg args)
    let w := w.setUri (str "/clipboard/list.json")
    HTTPGet env w.client.target (some authData) .listItems w

/-- The object `authData` that `getItem` builds from its arguments (lines 119-125). -/
def getItemAuthData (args : List JSVal) : AuthData :=
  if args.length ≥ 4 then { user := some (arg args 1), password := some (arg args 2), token := none }
  else if typeOf (arg args 1) ≠ "function" then
    { user := none, password := none, token := some (arg args 1) }
  else { user := none, password := none, token := none }

/-- The method `getItem` (lines 118-143). -/
def getItem (env : Env) (args : List JSVal) (w : World) : Result :=
  let authData : AuthData := getItemAuthData args
  let id := (arg args 0).orElse undefined
  if typeOf (lastArg args) ≠ "function" then (some usageError, w)
  else
    let w := w.setCallback (lastArg args)
    let w := w.setUri (str ("/clipboard/item/" ++ toStr env.funcSrc id))
    HTTPGet env w.client.target (some authData) .getItem w

/-- The object `authData` that `deleteItem` builds from its arguments (lines 158-164). -/
def deleteItemAuthData (args : List JSVal) : AuthData :=
  if args.length ≥ 4 then { user := some (arg args 1), password := some (arg args 2), token := none }
  else if typeOf (arg args 1) ≠ "function" then
    { user := none, password := none, token := some (arg args 1) }
  else { user := none, password := none, token := none }

/-- The method `deleteItem` (lines 157-181). -/
def deleteItem (env : Env) (args : List JSVal) (w : World) : Result :=
  let authData : AuthData := deleteItemAuthData args
  let id := (arg args 0).orElse undefined
  if typeOf (lastArg args) ≠ "function" then (some usageError, w)
  else
    let w := w.setCallback (lastArg args)
    let w := w.setUri (str ("/clipboard/item/" ++ toStr env.funcSrc id))
    HTTPDelete env w.client.target (some authData) .deleteItem w

/-- The object `authData` that `addItem` builds from its arguments (lines 196-202). -/
def addItemAuthData (args : List JSVal) : AuthData :=
  if args.length ≥ 4 then { user := some (arg args 1), password := some (arg args 2), token := none }
  else { user := none, password := none, token := some (arg args 1) }

/-- The method `addItem` (lines 195-221). -/
def addItem (env : Env) (args : List JSVal) (w : World) : Result :=
  let authData : AuthData := addItemAuthData args
  let item := (arg args 0).orElse undefined
  if typeOf (lastArg args) ≠ "function" then (some usageError, w)
  else
    let w := w.setCallback (lastArg args)
    let data := obj [("item", item)]
    let w := w.setUri (str "/clipboard/item")
    HTTPPost env w.client.target (some authData) data .addItem w

/-- The method `requestToken` (lines 233-251). -/
def requestToken (env : Env) (user passwd callback : JSVal) (w : World) : Result :=
  let authData : AuthData := { user := some user, password := some passwd, token := none }
  let w := w.setUri (str "/user/token")
  HTTPGet env w.client.target (some authData) (.requestToken callback) w

/-- The method `checkTokenValidity` (lines 262-291). -/
def checkTokenValidity (env : Env) (token callback : JSVal) (w : World) : Result :=
  let authData : AuthData := { user := none, password := none, token := some token }
  let w := w.setUri (str "/user/token/validity")
  HTTPGet env w.client.target (some authData) (.checkTokenValidity callback) w

/-- The method `checkUsernameAvailable` (lines 301-312). -/
def checkUsernameAvailable (env : Env) (username callback : JSVal) (w : World) : Result :=
  let w := w.setUri (str ("/v2.1/server/user/available?username=" ++ toStr env.funcSrc username))
  HTTPGet env w.client.target none (.checkUsernameAvailable callback) w

/-- The object `authData` that `getUser` builds from its arguments (lines 325-331). -/
def getUserAuthData (args : List JSVal) : AuthData :=
  if args.length ≥ 3 then { user := some (arg args 0), password := some (arg args 1), token := none }
  else { user := none, password := none, token := some (arg args 0) }

/-- The method `getUser` (lines 324-347). -/
def getUser (env : Env) (args : List JSVal) (w : World) : Result :=
  let authData : AuthData := getUserAuthData args
  if typeOf (lastArg args) ≠ "function" then (some usageError, w)
  else
    let w := w.setCallback (lastArg args)
    let w := w.setUri (str "/user")
    HTTPGet env w.client.target (some authData) .getUser w

/-- The method `updateUserPassword` (lines 361-380). -/
def updateUserPassword (env : Env) (user uid currPasswd newPasswd callback : JSVal) (w : World) :
    Result :=
  let data := obj [("newPassword", newPasswd)]
  let authData : AuthData := { user := some user, password := some currPasswd, token := none }
  let w := w.setUri (str ("/user/" ++ toStr env.funcSrc uid))
  HTTPPut env w.client.target (some authData) data (.updateUserPassword callback) w

/-- The method `deleteUser` (lines 393-408). -/
def deleteUser (env : Env) (user passwd uid callback : JSVal) (w : World) : Result :=
  let authData : AuthData := { user := some user, password := some passwd, token := none }
  let w := w.setUri (str ("/user/" ++ toStr env.funcSrc uid))
  HTTPDelete env w.client.target (some authData) (.deleteUser callback) w

/-! ## Calls and responses -/

/-- A call of a public operation with its arguments: the operations that inspect `arguments`
take the list of arguments, the others their parameters. -/
inductive Call where
  | getServerVersion (callback : JSVal)
  | listItems (args : List JSVal)
  | getItem (args : List JSVal)
  | deleteItem (args : List JSVal)
  | addItem (args : List JSVal)
  | requestToken (user passwd callback : JSVal)
  | checkTokenValidity (token callback : JSVal)
  | checkUsernameAvailable (username callback : JSVal)
  | getUser (args : List JSVal)
  | updateUserPassword (user uid currPasswd newPasswd callback : JSVal)
  | deleteUser (user passwd uid callback : JSVal)

/-- The last argument of a call, where the continuation is expected. -/
def Call.continuation : Call → JSVal
  | .getServerVersion callback => callback
  | .listItems args => lastArg args
  | .getItem args => lastArg args
  | .deleteItem args => lastArg args
  | .addItem args => lastArg args
  | .requestToken _ _ callback => callback
  | .checkTokenValidity _ callback => callback
  | .checkUsernameAvailable _ callback => callback
  | .getUser args => lastArg args
  | .updateUserPassword _ _ _ _ callback => callback
  | .deleteUser _ _ _ callback => callback

/-- Whether the call is of one of the operations that take the continuation from `arguments`. -/
def Call.variadic : Call → Bool
  | .listItems _ => true
  | .getItem _ => true
  | .deleteItem _ => true
  | .addItem _ => true
  | .getUser _ => true
  | _ => false

/-- Whether the call is of `checkTokenValidity`. -/
def Call.isCheckTokenValidity : Call → Bool
  | .checkTokenValidity _ _ => true
  | _ => false

/-- Performing a call. -/
def call (env : Env) (c : Call) (w : World) : Result :=
  match c with
  | .getServerVersion callback => getServerVersion env callback w
  | .listItems args => listItems env args w
  | .getItem args => getItem env args w
  | .deleteItem args => deleteItem env args w
  | .addItem args => addItem env args w
  | .requestToken user passwd callback => requestToken env user passwd callback w
  | .checkTokenValidity token callback => checkTokenValidity env token callback w
  | .checkUsernameAvailable username callback => checkUsernameAvailable env username callback w
  | .getUser args => getUser env args w
  | .updateUserPassword user uid currPasswd newPasswd callback =>
    updateUserPassword env user uid currPasswd newPasswd callback w
  | .deleteUser user passwd uid callback => deleteUser env user passwd uid callback w

/-- What the transport reports for one exchange: success with a body (`done`), or failure. -/
inductive Outcome where
  | done (data : JSVal)
  | fail (jqxhr : JqXHR) (err : JSVal)

/-- The transport settles the request `p`: it runs the `done` or the `fail` closure. -/
def settle (env : Env) (p : Pending) (o : Outcome) (w : World) : Result :=
  match o with
  | .done data => done env p.callback data w
  | .fail jqxhr err => fail env p.callback jqxhr err w

/-- The transport settles the request in flight at position `i`, which leaves the list. -/
def respond (env : Env) (i : Nat) (o : Outcome) (w : World) : Result :=
  match w.pending.get? i with
  | none => (none, w)
  | some p => settle env p o { w with pending := w.pending.eraseIdx i }

/-- The continuation invocations logged in `w1` after those already logged in `w0`. -/
def deliveredSince (w0 w1 : World) : List Delivery := w1.delivered.drop w0.delivered.length

/-- The handler invocations logged in `w1` after those already logged in `w0`. -/
def handledSince (w0 w1 : World) : List Handled := w1.handled.drop w0.handled.length

/-- The answer carried by an outcome: a structured body itself, the parse of any other body;
`none` for a failure and for a body that does not parse. -/
def Outcome.answer (env : Env) : Outcome → Option JSVal
  | .done data => if typeOf data = "object" then some data else env.parseJSON data
  | .fail _ _ => none

/-- Whether the outcome is a success with a structured body. -/
def Outcome.structured : Outcome → Bool
  | .done data => typeOf data = "object"
  | .fail _ _ => false

/-- The closure that the call hands to `HTTPRequest`. -/
def Call.handler : Call → Handler
  | .getServerVersion callback => .getServerVersion callback
  | .listItems _ => .listItems
  | .getItem _ => .getItem
  | .deleteItem _ => .deleteItem
  | .addItem _ => .addItem
  | .requestToken _ _ callback => .requestToken callback
  | .checkTokenValidity _ callback => .checkTokenValidity callback
  | .checkUsernameAvailable _ callback => .checkUsernameAvailable callback
  | .getUser _ => .getUser
  | .updateUserPassword _ _ _ _ callback => .updateUserPassword callback
  | .deleteUser _ _ _ callback => .deleteUser callback

/-- The value a closure calls as `callback` when it runs in `w`: the captured parameter, or the
current value of the global variable. -/
def Handler.target (w : World) : Handler → Option JSVal
  | .getServerVersion callback => some callback
  | .listItems => w.globals.callback
  | .getItem => w.globals.callback
  | .deleteItem => w.globals.callback
  | .addItem => w.globals.callback
  | .requestToken callback => some callback
  | .checkTokenValidity callback => some callback
  | .checkUsernameAvailable callback => some callback
  | .getUser => w.globals.callback
  | .updateUserPassword callback => some callback
  | .deleteUser callback => some callback

/-- Whether the closure is the one of `checkTokenValidity`. -/
def Handler.isCheckTokenValidity : Handler → Bool
  | .checkTokenValidity _ => true
  | _ => false

/-- A browser environment to evaluate examples in: `$.parseJSON` parses the texts listed in
`table` and throws on everything else, `btoa` is the identity (any total function would do), and
the caller's functions return normally. -/
def Env.ofTable (table : List (String × JSVal)) : Env :=
  { parseJSON := fun v =>
      match v with
      | str s => table.lookup s
      | _ => none
    btoa := fun s => some s
    stringify := fun _ => ""
    funcSrc := fun _ => "function"
    raises := fun _ _ _ => none }

/-- A client for `example.org:8080` without TLS and without default credentials. -/
def sampleClient : PastyClient := pastyclient (str "example.org") (num 8080) undefined

/-! ## Predicates used in the statements -/

/-- The pair handed to a continuation is never populated on both sides: the error is `null`, or
the result is `null` or `false`. -/
def Delivery.neverBoth (d : Delivery) : Prop :=
  d.err.isNull = true ∨ d.result.isNull = true ∨ d.result.isFalse = true

instance (d : Delivery) : Decidable d.neverBoth := by
  unfold Delivery.neverBoth
  infer_instance

/-- The pair handed to a continuation reports a failure: an error that is neither `null` nor
`undefined`, with a result that is `null` or `false`. -/
def Delivery.failure (d : Delivery) : Prop :=
  d.err.isNullish = false ∧ (d.result.isNull = true ∨ d.result.isFalse = true)

instance (d : Delivery) : Decidable d.failure := by
  unfold Delivery.failure
  infer_instance

/-- The pair handed to a continuation reports a success: a `null` error with a result that is
neither `null` nor `undefined`. -/
def Delivery.success (d : Delivery) : Prop :=
  d.err.isNull = true ∧ d.result.isNullish = false

instance (d : Delivery) : Decidable d.success := by
  unfold Delivery.success
  infer_instance

/-- The value of `v.hasOwnProperty(k)`, and `false` when that call throws. -/
def owns (v : JSVal) (k : String) : Bool :=
  match v.hasOwnProperty k with
  | .ok b => b
  | .error _ => false

/-- The function value `f` returns normally from every call. -/
def Env.returns (env : Env) (f : JSVal) : Prop :=
  ∀ e x, env.raisesOn f e x = none

/-- Whether the closure `h`, run on `(null, a)` in `w`, gets as far as the call of its callback.
Every closure needs an answer `a` that is not `null` or `undefined`.  The closure of
`checkTokenValidity` needs more: for an answer with code 200, a payload with `expires` (line 276
throws otherwise), and for an answer with another code, a value for the identifier `error` that
line 278 reads. -/
def Handler.answers (h : Handler) (w : World) (a : JSVal) : Bool :=
  match h with
  | .checkTokenValidity _ =>
    !a.isNullish &&
      (if (getPropD a "code").isNum 200 then
        owns a "payload" && owns (getPropD a "payload") "expires"
      else w.globals.error.isSome)
  | _ => !a.isNullish

/-- The outcomes on which the closure `h`, settled in `w`, gets as far as the call of its
callback: a failure, a body that does not parse, and an answer on which `h.answers` holds. -/
def Outcome.answered (env : Env) (h : Handler) (w : World) (o : Outcome) : Prop :=
  o.answer env = none ∨ ∃ a, o.answer env = some a ∧ h.answers w a = true

/-- What one run of the closure `h` on `(err, answer)` in `w` leaves behind: it touches neither
the globals nor the requests in flight, and it either throws without calling a continuation, or
calls the function that is its `callback` exactly once and ends as that call ends. -/
def RunPost (env : Env) (h : Handler) (err : JSVal) (w : World) (r : Result) : Prop :=
  r.2.globals = w.globals ∧ r.2.handled = w.handled ∧ r.2.pending = w.pending ∧
  ((r.1 ≠ none ∧ r.2.delivered = w.delivered) ∨
   (∃ (f : JSVal) (d : Delivery), h.target w = some f ∧ f.functionId = some d.continuation ∧
      r.2.delivered = w.delivered ++ [d] ∧ r.1 = env.raisesOn f d.err d.result ∧ d.neverBoth ∧
      (err.isNull = false → d.err = err ∧ (d.result.isNull = true ∨ d.result.isFalse = true))))

/-- The same for one invocation by `HTTPRequest`, which is logged. -/
def InvokePost (env : Env) (h : Handler) (err answer : JSVal) (w : World) (r : Result) : Prop :=
  r.2.globals = w.globals ∧ r.2.handled = w.handled ++ [⟨h, err, answer⟩] ∧
  r.2.pending = w.pending ∧
  ((r.1 ≠ none ∧ r.2.delivered = w.delivered) ∨
   (∃ (f : JSVal) (d : Delivery), h.target w = some f ∧ f.functionId = some d.continuation ∧
      r.2.delivered = w.delivered ++ [d] ∧ r.1 = env.raisesOn f d.err d.result ∧ d.neverBoth ∧
      (err.isNull = false → d.err = err ∧ (d.result.isNull = true ∨ d.result.isFalse = true))))

/-- What settling a request leaves behind: at most two continuation calls, each of the function
that is the handler's `callback`, never populated on both sides and a failure when the outcome
carries no answer; and one or two invocations of the handler.  When the outcome is a failure, a
body that does not parse, or a structured body, the handler is invoked once and the continuation
is called at most once. -/
def SettlePost (env : Env) (p : Pending) (o : Outcome) (w : World) (r : Result) : Prop :=
  ∃ ds hs, r.2.delivered = w.delivered ++ ds ∧ r.2.handled = w.handled ++ hs ∧ ds.length ≤ 2 ∧
    (∀ d ∈ ds, (∃ f, p.callback.target w = some f ∧ f.functionId = some d.continuation) ∧
      d.neverBoth ∧ (o.answer env = none → d.failure)) ∧
    1 ≤ hs.length ∧ hs.length ≤ 2 ∧ (∀ x ∈ hs, x.handler = p.callback) ∧
    ((o.answer env = none ∨ o.structured = true) → hs.length = 1 ∧ ds.length ≤ 1)

/-- The path of each operation: the endpoint list of the specification, with the version
prefix that `checkUsernameAvailable` puts in front, and with `undefined` in the place of an id
that is falsy. -/
def endpointPath (env : Env) : Call → String
  | .getServerVersion _ => "/server/version"
  | .listItems _ => "/clipboard/list.json"
  | .getItem args =>
    if (arg args 0).truthy then "/clipboard/item/" ++ toStr env.funcSrc (arg args 0)
    else "/clipboard/item/undefined"
  | .deleteItem args =>
    if (arg args 0).truthy then "/clipboard/item/" ++ toStr env.funcSrc (arg args 0)
    else "/clipboard/item/undefined"
  | .addItem _ => "/clipboard/item"
  | .requestToken _ _ _ => "/user/token"
  | .checkTokenValidity _ _ => "/user/token/validity"
  | .checkUsernameAvailable username _ =>
    "/v2.1/server/user/available?username=" ++ toStr env.funcSrc username
  | .getUser _ => "/user"
  | .updateUserPassword _ uid _ _ _ => "/user/" ++ toStr env.funcSrc uid
  | .deleteUser _ _ uid _ => "/user/" ++ toStr env.funcSrc uid

/-- The fresh world of the sample client. -/
def sampleWorld : World := World.fresh sampleClient

/-- The text of the answer with code 200 and nothing else. -/
def textCode200 : String := "\x7b\"code\":200\x7d"

/-- A browser environment whose `$.parseJSON` knows the text `textCode200`. -/
def sampleEnv : Env := Env.ofTable [(textCode200, obj [("code", num 200)])]

/-- The world after `listItems("tok", f1)` on the sample client. -/
def sampleListed : World := (call sampleEnv (.listItems [str "tok", func 1]) sampleWorld).2

/-- The request that `listItems("tok", f1)` puts in flight on the sample client. -/
def sampleListedRequest : Pending :=
  { options :=
      { url := "http://example.org:8080/clipboard/list.json"
        headers :=
          { acceptVersion := "2.1.0"
            contentType := "application/json; charset=utf-8"
            contentLength := 0
            userAgent := "pastyclient-browser 0.1.0"
            cache := false
            authorization := none }
        type := some "GET"
        data := none }
    callback := .listItems }

/-- A transport failure without a response body. -/
def sampleFailure : Outcome := .fail { responseJSON := undefined, status := num 0 } (str "timeout")

/-- The sample environment with caller functions `proc id` that throw whenever they are called. -/
def throwingEnv : Env :=
  { sampleEnv with raises := fun _ _ _ => some (.error "thrown by the continuation") }

/-! ## Lemmas on the building blocks -/

theorem HTTPRequest_cases (env : Env) (t : Target) (m : String) (a : Option AuthData) (d : JSVal)
    (h : Handler) (w : World) :
    HTTPRequest env t m a d h w = (some .invalidCharacter, w) ∨
    ∃ b, HTTPRequest env t m a d h w =
      (none, { w with pending := w.pending ++ [⟨buildOptions env t m b d, h⟩] }) := by
  unfold HTTPRequest
  cases basicAuth env (resolveAuth w.client a) with
  | none => exact Or.inl rfl
  | some b => exact Or.inr ⟨b, rfl⟩

theorem typeOf_function {v : JSVal} (h : typeOf v = "function") :
    ∃ k, v.functionId = some k := by
  cases v <;> simp [typeOf] at h <;> exact ⟨_, rfl⟩

theorem buildOptions_url (env : Env) (t : Target) (m : String) (b : Option String) (d : JSVal) :
    (buildOptions env t m b d).url =
      (if t.ssl.truthy then "https://" else "http://")
        ++ toStr env.funcSrc t.host ++ ":" ++ toStr env.funcSrc t.port
        ++ toStr env.funcSrc t.uri := by
  unfold buildOptions
  split_ifs <;> rfl

/-- A call that returns has put one request in flight, with the closure of the operation, whose
`callback` is the last argument of the call; it has called nothing yet. -/
theorem call_ok (env : Env) (c : Call) (w w1 : World) (hc : call env c w = (none, w1)) :
    (∃ opts, w1.pending = w.pending ++ [⟨opts, c.handler⟩]) ∧ w1.delivered = w.delivered ∧
    w1.handled = w.handled ∧ w1.globals.error = w.globals.error ∧
    c.handler.target w1 = some c.continuation := by
  cases c <;>
    simp only [call, getServerVersion, listItems, getItem, deleteItem, addItem, requestToken,
      checkTokenValidity, checkUsernameAvailable, getUser, updateUserPassword, deleteUser,
      HTTPGet, HTTPPost, HTTPPut, HTTPDelete] at hc <;>
    (try split at hc) <;>
    (try (exact absurd hc (by simp [usageError]))) <;>
    (rcases HTTPRequest_cases env _ _ _ _ _ _ with h | ⟨b, h⟩ <;> rw [h] at hc <;> simp at hc
     subst hc
     simp [Call.handler, Handler.target, Call.continuation, World.setUri, World.setCallback])

theorem handler_isCheckTokenValidity (c : Call) :
    c.handler.isCheckTokenValidity = c.isCheckTokenValidity := by
  cases c <;> rfl

theorem isNull_iff {v : JSVal} : v.isNull = true ↔ v = null := by
  cases v <;> simp [isNull]

theorem getProp_eq_error {v : JSVal} {k : String} {e : JSError} :
    v.getProp k = .error e ↔ (v.isNullish = true ∧ e = .typeError) := by
  cases v <;> simp [getProp, isNullish, eq_comm]

theorem isNullish_of_truthy {v : JSVal} (h : v.truthy = true) : v.isNullish = false := by
  cases v <;> simp_all [truthy, isNullish]

theorem isNull_of_not_nullish {v : JSVal} (h : v.isNullish = false) : v.isNull = false := by
  cases v <;> simp_all [isNull, isNullish]

theorem setProp_not_nullish {v : JSVal} (k : String) (x : JSVal) (h : v.isNullish = false) :
    (v.setProp k x).isNullish = false := by
  cases v <;> simp_all [setProp, isNullish]

theorem withProp_of_not_nullish {v : JSVal} (k : String) (w : World) (f : JSVal → Result)
    (h : v.isNullish = false) : withProp v k w f = f (getPropD v k) := by
  cases v <;> simp_all [withProp, getProp, getPropD, isNullish]

theorem withProp_of_truthy {v : JSVal} (k : String) (w : World) (f : JSVal → Result)
    (h : v.truthy = true) : withProp v k w f = f (getPropD v k) :=
  withProp_of_not_nullish k w f (isNullish_of_truthy h)

theorem getPropD_of_not_own {v : JSVal} {k : String} (h : v.hasOwnProperty k = .ok false) :
    getPropD v k = undefined := by
  cases v with
  | obj fields =>
    have h1 : (fields.lookup k).isSome = false := Except.ok.inj h
    cases hl : fields.lookup k with
    | none => simp [getPropD, getProp, hl]
    | some x => rw [hl] at h1; simp at h1
  | arr items props =>
    have h1 : ((props.lookup k).isSome || k == "length" || isIndexBelow k items.length) = false :=
      Except.ok.inj h
    rw [Bool.or_eq_false_iff, Bool.or_eq_false_iff] at h1
    cases hl : props.lookup k with
    | none => simp [getPropD, getProp, hl]
    | some x => rw [hl] at h1; simp at h1
  | undefined => simp [hasOwnProperty] at h
  | null => simp [hasOwnProperty] at h
  | bool b => rfl
  | num n => rfl
  | str s => rfl
  | func k => rfl
  | proc k => rfl

theorem target_congr (h : Handler) {w w1 : World} (hg : w1.globals.callback = w.globals.callback) :
    h.target w1 = h.target w := by
  cases h <;> simp [Handler.target, hg]

theorem owns_not_nullish {v : JSVal} {k : String} (h : owns v k = true) :
    v.isNullish = false := by
  cases v <;> simp_all [owns, hasOwnProperty, isNullish]

theorem withOwn_of_not_nullish {v : JSVal} (k : String) (w : World) (f : Bool → Result)
    (h : v.isNullish = false) : withOwn v k w f = f (owns v k) := by
  cases v <;> simp_all [withOwn, owns, hasOwnProperty, isNullish]

/-! ## One run of a closure -/

theorem callFunction_delivered (env : Env) (f e x : JSVal) (w : World) (k : Nat)
    (hf : f.functionId = some k) :
    callFunction env f e x w
      = (env.raisesOn f e x, { w with delivered := w.delivered ++ [⟨k, e, x⟩] }) := by
  cases f <;> simp [functionId] at hf <;> subst hf <;> rfl

theorem callFunction_post (env : Env) (h : Handler) (err f e x : JSVal) (w w0 : World)
    (hg : w.globals = w0.globals) (hh : w.handled = w0.handled) (hp : w.pending = w0.pending)
    (hd : w.delivered = w0.delivered)
    (ht : h.target w0 = some f)
    (h1 : e.isNull = true ∨ x.isNull = true ∨ x.isFalse = true)
    (h2 : err.isNull = false → e = err ∧ (x.isNull = true ∨ x.isFalse = true)) :
    RunPost env h err w0 (callFunction env f e x w) := by
  cases hf : f.functionId with
  | some k =>
    rw [callFunction_delivered env f e x w k hf]
    exact ⟨hg, hh, hp, Or.inr ⟨f, ⟨k, e, x⟩, ht, hf, by simp [hd], rfl, h1, h2⟩⟩
  | none =>
    have hr : callFunction env f e x w = (some .typeError, w) := by
      cases f <;> simp [functionId] at hf <;> rfl
    rw [hr]
    exact ⟨hg, hh, hp, Or.inl ⟨by simp, hd⟩⟩

theorem callGlobal_post (env : Env) (h : Handler) (err e x : JSVal) (w : World)
    (ht : h.target w = w.globals.callback)
    (h1 : e.isNull = true ∨ x.isNull = true ∨ x.isFalse = true)
    (h2 : err.isNull = false → e = err ∧ (x.isNull = true ∨ x.isFalse = true)) :
    RunPost env h err w (callGlobal env e x w) := by
  unfold callGlobal
  cases hc : w.globals.callback with
  | none => simp [RunPost]
  | some f =>
    exact callFunction_post env h err f e x w w rfl rfl rfl rfl (by rw [ht, hc]) h1 h2

theorem throw_post (env : Env) (h : Handler) (err : JSVal) (w : World) (e : JSError) :
    RunPost env h err w (some e, w) := by
  simp [RunPost]

theorem run_post (env : Env) (h : Handler) (err answer : JSVal) (w : World) :
    RunPost env h err w (h.run env err answer w) := by
  cases h <;>
    simp only [Handler.run, getServerVersionHandler, listItemsHandler, getItemHandler,
      deleteItemHandler, addItemHandler, requestTokenHandler, checkTokenValidityHandler,
      checkUsernameAvailableHandler, getUserHandler, updateUserPasswordHandler,
      deleteUserHandler, withProp, withOwn] <;>
    (repeat' split) <;>
    first
      | exact throw_post _ _ _ _ _
      | (apply callGlobal_post <;> simp_all [Handler.target, JSVal.isNull, JSVal.isFalse])
      | (apply callFunction_post <;> simp_all [Handler.target, JSVal.isNull, JSVal.isFalse])

/-- When the error is not `null`, or the answer is one on which the closure gets as far as its
callback, a run of the closure whose callback is the function `f` calls `f` exactly once. -/
theorem run_calls (env : Env) (h : Handler) (err answer f : JSVal) (w : World) (k : Nat)
    (ht : h.target w = some f) (hf : f.functionId = some k)
    (hcase : err.isNull = false ∨ h.answers w answer = true) :
    (h.run env err answer w).2.delivered.length = w.delivered.length + 1 := by
  by_cases he : err.isNull = true
  · rcases hcase with he2 | ha
    · simp [he] at he2
    · cases h with
      | checkTokenValidity callback =>
        simp only [Handler.target, Option.some.injEq] at ht
        subst ht
        simp only [Handler.answers, Bool.and_eq_true, Bool.not_eq_true'] at ha
        obtain ⟨hn, hrest⟩ := ha
        simp only [Handler.run, checkTokenValidityHandler, he, if_true,
          withProp_of_not_nullish _ _ _ hn, withOwn_of_not_nullish _ _ _ hn]
        split_ifs at hrest with hcode
        · simp only [Bool.and_eq_true] at hrest
          obtain ⟨hp, hx⟩ := hrest
          have hpn := owns_not_nullish hx
          simp [hcode, hp, hx, withOwn_of_not_nullish _ _ _ hpn,
            withProp_of_not_nullish _ _ _ hpn, callFunction_delivered env callback _ _ _ k hf]
        · obtain ⟨e, hg⟩ := Option.isSome_iff_exists.mp hrest
          have hcode2 : isNum 200 (getPropD answer "code") = false := by simpa using hcode
          simp only [hcode2, Bool.false_eq_true, if_false, hg]
          split_ifs <;>
            simp [withProp_of_not_nullish _ _ _ hn, callFunction_delivered env callback _ _ _ k hf]
      | _ =>
        simp [Handler.answers] at ha
        simp [Handler.target] at ht
        simp only [Handler.run, getServerVersionHandler, listItemsHandler, getItemHandler,
          deleteItemHandler, addItemHandler, requestTokenHandler,
          checkUsernameAvailableHandler, getUserHandler, updateUserPasswordHandler,
          deleteUserHandler, he, if_true, withProp_of_not_nullish _ _ _ ha]
        (try split_ifs with h1) <;>
        (try rw [withProp_of_truthy _ _ _ h1]) <;>
        (first
          | (subst ht; simp [callFunction_delivered env _ _ _ _ k hf])
          | simp [callGlobal, ht, callFunction_delivered env f _ _ _ k hf])
  · cases h <;> simp [Handler.target] at ht <;>
      simp [Handler.run, getServerVersionHandler, listItemsHandler, getItemHandler,
        deleteItemHandler, addItemHandler, requestTokenHandler, checkTokenValidityHandler,
        checkUsernameAvailableHandler, getUserHandler, updateUserPasswordHandler,
        deleteUserHandler, he, callGlobal, ht, callFunction_delivered env _ _ _ _ k hf]

theorem answers_congr (h : Handler) (a : JSVal) (w w1 : World)
    (hg : w1.globals.error = w.globals.error) : h.answers w1 a = h.answers w a := by
  cases h <;> simp [Handler.answers, hg]

theorem invoke_post (env : Env) (h : Handler) (err answer : JSVal) (w : World) :
    InvokePost env h err answer w (h.invoke env err answer w) := by
  have hp := run_post env h err answer { w with handled := w.handled ++ [⟨h, err, answer⟩] }
  have ht : h.target { w with handled := w.handled ++ [⟨h, err, answer⟩] } = h.target w :=
    target_congr h rfl
  simpa [RunPost, InvokePost, Handler.invoke, ht] using hp

/-- An invocation that gets as far as the callback calls it exactly once and ends as that call
ends. -/
theorem invoke_calls (env : Env) (h : Handler) (err answer f : JSVal) (w : World) (k : Nat)
    (ht : h.target w = some f) (hf : f.functionId = some k)
    (hcase : err.isNull = false ∨ h.answers w answer = true) :
    ∃ e x, (h.invoke env err answer w).1 = env.raisesOn f e x ∧
      (h.invoke env err answer w).2.delivered = w.delivered ++ [⟨k, e, x⟩] ∧
      (h.invoke env err answer w).2.handled = w.handled ++ [⟨h, err, answer⟩] := by
  have hlen : (h.invoke env err answer w).2.delivered.length = w.delivered.length + 1 := by
    unfold Handler.invoke
    exact run_calls env h err answer f _ k (by rw [← ht]; exact target_congr h rfl) hf
      (hcase.imp id fun h2 => Eq.trans (answers_congr h answer w _ rfl) h2)
  obtain ⟨_, h2, _, h4⟩ := invoke_post env h err answer w
  rcases h4 with ⟨_, h5⟩ | ⟨g, d, h5, h6, h7, h8, _, _⟩
  · rw [h5] at hlen
    omega
  · rw [ht] at h5
    simp only [Option.some.injEq] at h5
    subst h5
    rw [hf] at h6
    simp only [Option.some.injEq] at h6
    refine ⟨d.err, d.result, h8, ?_, h2⟩
    rw [h7, h6]

/-! ## Settling a request -/

/-- One invocation of the handler with an error that is not `null` or `undefined`, seen from a
world `w0` with the same continuation log and the same global `callback` as the world `w` of the
invocation: the invocation is logged, and at most one continuation call, which is a failure. -/
theorem invoke_error_shape (env : Env) (h : Handler) (err answer : JSVal)
    (w w0 : World) (hd : w.delivered = w0.delivered)
    (hc : w.globals.callback = w0.globals.callback) (he : err.isNullish = false) :
    ∃ ds, (h.invoke env err answer w).2.delivered = w0.delivered ++ ds ∧
      (h.invoke env err answer w).2.handled = w.handled ++ [⟨h, err, answer⟩] ∧
      ds.length ≤ 1 ∧
      ∀ d ∈ ds, (∃ f, h.target w0 = some f ∧ f.functionId = some d.continuation) ∧
        d.neverBoth ∧ d.failure := by
  obtain ⟨_, h2, _, h4⟩ := invoke_post env h err answer w
  have ht := target_congr h hc
  rcases h4 with ⟨_, h5⟩ | ⟨f, d, h5, h6, h7, _, h9, h10⟩
  · exact ⟨[], by simp [h5, hd], h2, by simp, by simp⟩
  · refine ⟨[d], by simp [h7, hd], h2, by simp, ?_⟩
    intro d' hd'
    simp at hd'
    subst hd'
    obtain ⟨h11, h12⟩ := h10 (isNull_of_not_nullish he)
    exact ⟨⟨f, by rw [← ht]; exact h5, h6⟩, h9, ⟨by rw [h11]; exact he, h12⟩⟩

theorem invoke_error_post (env : Env) (p : Pending) (o : Outcome) (err answer : JSVal)
    (w w0 : World) (hd : w.delivered = w0.delivered) (hh : w.handled = w0.handled)
    (hc : w.globals.callback = w0.globals.callback) (he : err.isNullish = false) :
    SettlePost env p o w0 (p.callback.invoke env err answer w) := by
  obtain ⟨ds, hA, hB, hC, hD⟩ := invoke_error_shape env p.callback err answer w w0 hd hc he
  exact ⟨ds, [⟨p.callback, err, answer⟩], hA, by rw [hB, hh], by omega,
    fun d hm => ⟨(hD d hm).1, (hD d hm).2.1, fun _ => (hD d hm).2.2⟩,
    by simp, by simp, by simp, fun _ => ⟨by simp, hC⟩⟩

theorem settle_post (env : Env) (p : Pending) (o : Outcome) (w : World) :
    SettlePost env p o w (settle env p o w) := by
  cases o with
  | fail jqxhr err =>
    by_cases hU : isStr "Unauthorized" err = true <;>
      by_cases hN : jqxhr.responseJSON.isNullish = true <;>
      simp only [settle, fail, hU, hN, if_true, if_false] <;>
      apply invoke_error_post <;>
      first
        | rfl
        | (apply setProp_not_nullish; first | rfl | simpa using hN)
  | done data =>
    simp only [settle, done]
    split
    · rename_i hobj
      obtain ⟨_, h2, _, h4⟩ := invoke_post env p.callback null data w
      rcases h4 with ⟨_, h5⟩ | ⟨f, d, h5, h6, h7, _, h9, _⟩
      · exact ⟨[], [⟨p.callback, null, data⟩], by simp [h5], by simp [h2], by simp,
          by simp, by simp, by simp, by simp, by simp⟩
      · refine ⟨[d], [⟨p.callback, null, data⟩], by simp [h7], by simp [h2], by simp,
          ?_, by simp, by simp, by simp, by simp⟩
        intro d' hd'
        simp at hd'
        subst hd'
        exact ⟨⟨f, h5, h6⟩, h9, by simp [Outcome.answer, hobj]⟩
    · rename_i hobj
      cases hparse : env.parseJSON data with
      | none =>
        simp only []
        exact invoke_error_post env p (.done data) invalidJSON undefined w w rfl rfl rfl rfl
      | some answer =>
        simp only []
        have hans : (Outcome.done data).answer env = some answer := by
          simp [Outcome.answer, hobj, hparse]
        have hstr : (Outcome.done data).structured = false := by
          simp [Outcome.structured, hobj]
        obtain ⟨h1, h2, _, h4⟩ := invoke_post env p.callback null answer w
        -- the deliveries of the first invocation
        have hfirst : ∃ ds1, (p.callback.invoke env null answer w).2.delivered
            = w.delivered ++ ds1 ∧ ds1.length ≤ 1 ∧
            ∀ d ∈ ds1, (∃ f, p.callback.target w = some f ∧ f.functionId = some d.continuation) ∧
              d.neverBoth := by
          rcases h4 with ⟨_, h5⟩ | ⟨f, d, h5, h6, h7, _, h9, _⟩
          · exact ⟨[], by simp [h5], by simp, by simp⟩
          · refine ⟨[d], h7, by simp, ?_⟩
            intro d' hd'
            simp at hd'
            subst hd'
            exact ⟨⟨f, h5, h6⟩, h9⟩
        obtain ⟨ds1, hd1, hl1, hp1⟩ := hfirst
        cases hres : (p.callback.invoke env null answer w).1 with
        | none =>
          have hsplit : p.callback.invoke env null answer w
              = (none, (p.callback.invoke env null answer w).2) := by
            rw [← hres]
          rw [hsplit]
          simp only []
          exact ⟨ds1, [⟨p.callback, null, answer⟩], hd1, h2, by omega,
            fun d hm => ⟨(hp1 d hm).1, (hp1 d hm).2, by simp [hans]⟩,
            by simp, by simp, by simp, by simp [hans, hstr]⟩
        | some e =>
          have hsplit : p.callback.invoke env null answer w
              = (some e, (p.callback.invoke env null answer w).2) := by
            rw [← hres]
          rw [hsplit]
          simp only []
          obtain ⟨ds2, hA, hB, hC, hD⟩ :=
            invoke_error_shape env p.callback invalidJSON undefined
              (p.callback.invoke env null answer w).2 (p.callback.invoke env null answer w).2
              rfl rfl rfl
          have ht := target_congr p.callback (congrArg Globals.callback h1)
          refine ⟨ds1 ++ ds2, [⟨p.callback, null, answer⟩, ⟨p.callback, invalidJSON, undefined⟩],
            by rw [hA, hd1, List.append_assoc], by simp [hB, h2],
            by rw [List.length_append]; omega, ?_, by simp, by simp, by simp,
            by simp [hans, hstr]⟩
          intro d hm
          rcases List.mem_append.mp hm with hm1 | hm2
          · exact ⟨(hp1 d hm1).1, (hp1 d hm1).2, by simp [hans]⟩
          · obtain ⟨⟨f, hf1, hf2⟩, hnb, _⟩ := hD d hm2
            exact ⟨⟨f, by rw [← ht]; exact hf1, hf2⟩, hnb, by simp [hans]⟩

/-- A successful exchange whose handler does not throw on the answer is one invocation of the
handler on `(null, answer)`, whether the body is structured or text. -/
theorem done_of_answer (env : Env) (h : Handler) (data answer : JSVal) (w : World)
    (ha : (Outcome.done data).answer env = some answer)
    (hn : (h.invoke env null answer w).1 = none) :
    done env h data w = h.invoke env null answer w := by
  unfold done
  simp only [Outcome.answer] at ha
  split
  · rename_i hobj
    simp [hobj] at ha
    rw [ha]
  · rename_i hobj
    simp [hobj] at ha
    rw [ha]
    simp only []
    have hsplit : h.invoke env null answer w = (none, (h.invoke env null answer w).2) := by
      rw [← hn]
    rw [hsplit]

/-- A successful exchange with a structured body is one invocation of the handler on
`(null, data)`. -/
theorem done_structured (env : Env) (h : Handler) (data : JSVal) (w : World)
    (hs : (Outcome.done data).structured = true) :
    done env h data w = h.invoke env null data w := by
  have hobj : typeOf data = "object" := by simpa [Outcome.structured] using hs
  simp [done, hobj]

/-- On the outcomes on which the handler gets as far as its callback, the function `f` with
identifier `k`, settling the request calls `f` exactly once, invokes the handler exactly once, and
ends as the call of `f` ends; for a text body that parses this needs `f` to return normally. -/
theorem settle_answered (env : Env) (p : Pending) (o : Outcome) (w : World) (f : JSVal) (k : Nat)
    (ht : p.callback.target w = some f) (hf : f.functionId = some k)
    (hby : o.answered env p.callback w)
    (hr : o.answer env = none ∨ o.structured = true ∨ env.returns f) :
    ∃ e x he ha, (settle env p o w).1 = env.raisesOn f e x ∧
      (settle env p o w).2.delivered = w.delivered ++ [⟨k, e, x⟩] ∧
      (settle env p o w).2.handled = w.handled ++ [⟨p.callback, he, ha⟩] := by
  cases o with
  | fail jqxhr err =>
    have key : ∀ (error : JSVal) (w1 : World), error.isNullish = false →
        w1.delivered = w.delivered → w1.handled = w.handled →
        w1.globals.callback = w.globals.callback →
        ∃ e x he ha, (p.callback.invoke env error null w1).1 = env.raisesOn f e x ∧
          (p.callback.invoke env error null w1).2.delivered = w.delivered ++ [⟨k, e, x⟩] ∧
          (p.callback.invoke env error null w1).2.handled
            = w.handled ++ [⟨p.callback, he, ha⟩] := by
      intro error w1 hne hd hh hc
      obtain ⟨e, x, h1, h2, h3⟩ := invoke_calls env p.callback error null f w1 k
        (by rw [target_congr p.callback hc]; exact ht) hf (Or.inl (isNull_of_not_nullish hne))
      exact ⟨e, x, error, null, h1, by rw [h2, hd], by rw [h3, hh]⟩
    by_cases hU : isStr "Unauthorized" err = true <;>
      by_cases hN : jqxhr.responseJSON.isNullish = true <;>
      simp only [settle, fail, hU, hN, if_true, if_false] <;>
      apply key <;>
      first
        | rfl
        | (apply setProp_not_nullish; first | rfl | simpa using hN)
  | done data =>
    simp only [settle]
    rcases hby with hnone | ⟨a, ha, hans⟩
    · simp only [Outcome.answer] at hnone
      have hobj : ¬ typeOf data = "object" := by
        intro h
        simp [h] at hnone
      simp only [hobj, if_false] at hnone
      simp only [done, hobj, if_false, hnone]
      obtain ⟨e, x, h1, h2, h3⟩ := invoke_calls env p.callback invalidJSON undefined f w k
        ht hf (Or.inl rfl)
      exact ⟨e, x, invalidJSON, undefined, h1, h2, h3⟩
    · obtain ⟨e, x, h1, h2, h3⟩ := invoke_calls env p.callback null a f w k ht hf (Or.inr hans)
      have hdone : done env p.callback data w = p.callback.invoke env null a w := by
        rcases hr with hnone | hstr | hret
        · rw [ha] at hnone
          simp at hnone
        · have hda : data = a := by
            have hobj : typeOf data = "object" := by simpa [Outcome.structured] using hstr
            simpa [Outcome.answer, hobj] using ha
          rw [← hda]
          exact done_structured env p.callback data w hstr
        · exact done_of_answer env p.callback data a w ha (by rw [h1]; exact hret e x)
      rw [hdone]
      exact ⟨e, x, null, a, h1, h2, h3⟩

/-! ## C1: how often the continuation is invoked -/

/-- C1 (claim as stated, refuted): `checkTokenValidity("tok", f1)` on the sample client, answered
by the structured body with `code` 200 and no payload, raises the protocol-violation error and
never invokes the continuation: zero invocations, not exactly one. -/
theorem checkTokenValidity_zero_invocations :
    (respond sampleEnv 0 (.done (obj [("code", num 200)]))
      (call sampleEnv (.checkTokenValidity (str "tok") (func 1)) sampleWorld).2).1
      = some (.error "Server did not answer according to API") ∧
    (respond sampleEnv 0 (.done (obj [("code", num 200)]))
      (call sampleEnv (.checkTokenValidity (str "tok") (func 1)) sampleWorld).2).2.delivered.length
      = 0 := by
  constructor <;> rfl

/-- A continuation that throws is called twice on a text body that parses: `getServerVersion(p1)`
on the sample client, with `p1` a function that throws, answered by the text `textCode200`.  The
call `p1(null, undefined)` throws inside the `try` of `HTTPRequest` (lines 539-545), whose `catch`
invokes the handler again, which calls `p1` with the error "Invalid JSON received". -/
theorem throwing_continuation_called_twice :
    (respond throwingEnv 0 (.done (str textCode200))
      (call throwingEnv (.getServerVersion (proc 1)) sampleWorld).2).2.delivered
      = [⟨1, null, undefined⟩, ⟨1, invalidJSON, null⟩] := by
  rfl

/-- The closure of a call keeps its callback in every world `w2` reached from the world `w1`
after the call without another assignment to the global `callback`. -/
theorem call_target (env : Env) (c : Call) (w w1 w2 : World) (p : Pending)
    (hc : call env c w = (none, w1)) (hp : w1.pending = w.pending ++ [p])
    (hcb : c.variadic = true → w2.globals.callback = w1.globals.callback) :
    p.callback = c.handler ∧ c.handler.target w2 = some c.continuation := by
  obtain ⟨⟨opts, hpend⟩, _, _, _, htarget⟩ := call_ok env c w w1 hc
  rw [hp] at hpend
  have := List.append_cancel_left hpend
  simp at this
  refine ⟨by rw [this], ?_⟩
  rw [← htarget]
  cases c <;> first
    | rfl
    | exact target_congr _ (hcb rfl)

/-- C1 (amended): a public operation is called with a function (identifier `k`) as its
continuation and returns, and the transport settles its request in a world `w2` in which the
global `callback` is still the one the call left (no later call of `listItems`, `getItem`,
`deleteItem`, `addItem` or `getUser` when the operation is one of these).  Then:
every continuation call made is a call of that function; on a failure, on a body that does not
parse and on a structured body the function is called at most once and the handler given to
`HTTPRequest` is invoked exactly once; and on every outcome on which the handler gets as far as
its callback (`Outcome.answered`: a failure, a body that does not parse, an answer that is not
`null` and, for `checkTokenValidity`, has code 200 with `payload.expires`, or another code while
the identifier `error` has a value) the function is called exactly once, the handler is invoked
exactly once, and nothing is raised but what that one call raises, where on a text body that
parses the function is required to return normally. -/
theorem continuation_invoked_once (env : Env) (c : Call) (k : Nat) (w w1 w2 : World)
    (p : Pending) (o : Outcome) (hk : c.continuation.functionId = some k)
    (hc : call env c w = (none, w1)) (hp : w1.pending = w.pending ++ [p])
    (hcb : c.variadic = true → w2.globals.callback = w1.globals.callback) :
    (∀ d ∈ deliveredSince w2 (settle env p o w2).2, d.continuation = k) ∧
    ((o.answer env = none ∨ o.structured = true) →
      (deliveredSince w2 (settle env p o w2).2).length ≤ 1 ∧
      ∃ e a, handledSince w2 (settle env p o w2).2 = [⟨c.handler, e, a⟩]) ∧
    (o.answered env c.handler w2 →
      (o.answer env = none ∨ o.structured = true ∨ env.returns c.continuation) →
      ∃ e x, (settle env p o w2).1 = env.raisesOn c.continuation e x ∧
        deliveredSince w2 (settle env p o w2).2 = [⟨k, e, x⟩] ∧
        ∃ he ha, handledSince w2 (settle env p o w2).2 = [⟨c.handler, he, ha⟩]) := by
  obtain ⟨hpc, ht⟩ := call_target env c w w1 w2 p hc hp hcb
  rw [← hpc] at ht
  obtain ⟨ds, hs, hA, hB, _, hD, _, _, hG, hH⟩ := settle_post env p o w2
  have hds : deliveredSince w2 (settle env p o w2).2 = ds := by
    simp [deliveredSince, hA]
  have hhs : handledSince w2 (settle env p o w2).2 = hs := by
    simp [handledSince, hB]
  refine ⟨?_, ?_, ?_⟩
  · intro d hd
    rw [hds] at hd
    obtain ⟨⟨f, hf1, hf2⟩, _⟩ := hD d hd
    rw [ht] at hf1
    simp only [Option.some.injEq] at hf1
    subst hf1
    rw [hk] at hf2
    simp only [Option.some.injEq] at hf2
    exact hf2.symm
  · intro ho
    obtain ⟨hlen, hdl⟩ := hH ho
    refine ⟨by rw [hds]; exact hdl, ?_⟩
    rw [hhs]
    match hs, hlen, hG with
    | [x], _, hG =>
      refine ⟨x.err, x.answer, ?_⟩
      have := hG x (by simp)
      rw [← hpc, ← this]
  · intro hby hr
    rw [← hpc] at hby
    obtain ⟨e, x, he, ha, h1, h2, h3⟩ := settle_answered env p o w2 c.continuation k ht hk hby hr
    refine ⟨e, x, h1, ?_, he, ha, ?_⟩
    · simp [deliveredSince, h2]
    · simp [handledSince, h3, hpc]

/-- C1, at a concrete input: `listItems("tok", f1)` on the sample client and a transport failure
call `f1` exactly once. -/
theorem continuation_invoked_once_witness :
    ∃ e x, (settle sampleEnv sampleListedRequest sampleFailure sampleListed).1
        = sampleEnv.raisesOn (func 1) e x ∧
      deliveredSince sampleListed
        (settle sampleEnv sampleListedRequest sampleFailure sampleListed).2 = [⟨1, e, x⟩] ∧
      ∃ he ha, handledSince sampleListed
        (settle sampleEnv sampleListedRequest sampleFailure sampleListed).2
          = [⟨.listItems, he, ha⟩] :=
  (continuation_invoked_once sampleEnv (.listItems [str "tok", func 1]) 1 sampleWorld
    sampleListed sampleListed sampleListedRequest sampleFailure rfl rfl rfl (fun _ => rfl)).2.2
    (Or.inl rfl) (Or.inl rfl)

/-! ## C2: the pair handed to the continuation -/

/-- C2 (claim as stated, refuted): `getServerVersion(f1)` on the sample client, answered by the
empty object, hands `(null, undefined)` to the continuation, which is neither a failure (an error
with a `null` or `false` result) nor a success (a `null` error with a populated result). -/
theorem getServerVersion_neither_populated :
    (respond sampleEnv 0 (.done (obj []))
      (call sampleEnv (.getServerVersion (func 1)) sampleWorld).2).2.delivered
      = [⟨1, null, undefined⟩] ∧
    ¬ ((⟨1, null, undefined⟩ : Delivery).failure ∨ (⟨1, null, undefined⟩ : Delivery).success) := by
  refine ⟨rfl, ?_⟩
  decide

/-- C2 (amended): for every request of every operation and every transport outcome, each pair
handed to a continuation is never populated on both sides (the error is `null`, or the result is
`null` or `false`); and when the outcome is a failure or a body that does not parse, the error is
neither `null` nor `undefined` and the result is `null` or `false`. -/
theorem error_result_never_both (env : Env) (p : Pending) (o : Outcome) (w : World) :
    ∀ d ∈ deliveredSince w (settle env p o w).2,
      d.neverBoth ∧ (o.answer env = none → d.failure) := by
  obtain ⟨ds, hs, hA, _, _, hD, _⟩ := settle_post env p o w
  intro d hd
  have hds : deliveredSince w (settle env p o w).2 = ds := by
    simp [deliveredSince, hA]
  rw [hds] at hd
  exact (hD d hd).2

/-- C2, at a concrete input: `listItems("tok", f1)` on the sample client and a transport failure
hand the continuation the default error with the status code attached, and `null`. -/
theorem error_result_never_both_witness :
    (⟨1, obj [("code", str "UnknownError"), ("message", str "Unknown error occured"),
        ("statusCode", num 0)], null⟩ : Delivery).neverBoth ∧
    (sampleFailure.answer sampleEnv = none →
      (⟨1, obj [("code", str "UnknownError"), ("message", str "Unknown error occured"),
        ("statusCode", num 0)], null⟩ : Delivery).failure) :=
  error_result_never_both sampleEnv sampleListedRequest sampleFailure sampleListed
    ⟨1, obj [("code", str "UnknownError"), ("message", str "Unknown error occured"),
      ("statusCode", num 0)], null⟩
    (List.Mem.head [])

/-! ## C3: two operations in flight -/

/-- C3 (the code at the failing input): on the sample client, `listItems("tok", f1)` and then
`deleteItem("id", "tok2", f2)` are called, both requests are in flight, and the response to the
first (the `listItems` request) arrives.  Its items are handed to `f2`, the continuation of the
second call; `f1` is not called. -/
theorem response_crosses_to_second_continuation :
    (call sampleEnv (.deleteItem [str "id", str "tok2", func 2])
      (call sampleEnv (.listItems [str "tok", func 1]) sampleWorld).2).2.pending.map
        (fun p => p.options.url)
      = ["http://example.org:8080/clipboard/list.json", "http://example.org:8080/clipboard/item/id"] ∧
    (respond sampleEnv 0 (.done (obj [("payload", obj [("items", arr [str "a"] [])])]))
      (call sampleEnv (.deleteItem [str "id", str "tok2", func 2])
        (call sampleEnv (.listItems [str "tok", func 1]) sampleWorld).2).2).2.delivered
      = [⟨2, null, arr [str "a"] []⟩] := by
  constructor
  · decide
  · rfl

/-! ## C4: a last argument that is not a function -/

/-- C4 (claim as stated, refuted): `getServerVersion("not a function")` on the sample client
raises nothing and puts the request for `/server/version` in flight; the `TypeError` comes only
when the response is handled. -/
theorem getServerVersion_sends_without_continuation :
    (call sampleEnv (.getServerVersion (str "not a function")) sampleWorld).1 = none ∧
    (call sampleEnv (.getServerVersion (str "not a function")) sampleWorld).2.pending.map
        (fun p => p.options.url)
      = ["http://example.org:8080/server/version"] ∧
    (respond sampleEnv 0 (.done (obj [("payload", str "1.0")]))
      (call sampleEnv (.getServerVersion (str "not a function")) sampleWorld).2).1
      = some .typeError := by
  refine ⟨?_, ?_, ?_⟩ <;> decide

/-- C4 (amended): `listItems`, `getItem`, `deleteItem`, `addItem` and `getUser`, called with a
last argument that is not a function, raise the usage error at once and leave the world as it
was: no request is built or sent and no global is assigned. -/
theorem usage_error_before_request (env : Env) (c : Call) (w : World)
    (hv : c.variadic = true) (hf : typeOf c.continuation ≠ "function") :
    call env c w = (some usageError, w) := by
  cases c <;> simp [Call.variadic] at hv <;>
    simp only [Call.continuation] at hf <;>
    simp [call, listItems, getItem, deleteItem, addItem, getUser, hf]

/-- C4, at a concrete input: `listItems("tok")` on the sample client. -/
theorem usage_error_before_request_witness :
    call sampleEnv (.listItems [str "tok"]) sampleWorld = (some usageError, sampleWorld) :=
  usage_error_before_request sampleEnv (.listItems [str "tok"]) sampleWorld rfl (by decide)

/-! ## C5: authentication resolution -/

/-- C5: the authentication object that each operation resolves from its arguments and hands to
`HTTPRequest`.  For every call `(username, password, cb)` of `listItems` and `getUser`, and
`(item, username, password, cb)` of `getItem`, `deleteItem` and `addItem`, the object has
`user = username`, `password = password` and no token, whatever the values.  For every call
`(x, cb)`, respectively `(item, x, cb)`, with `x` not a function, the object has `token = x` and
neither user nor password, so that `HTTPRequest` resolves it to the username and password
configured on the client.  With a function `cb`, each of these calls hands that object to
`HTTPRequest`. -/
theorem auth_resolution (env : Env) (u pw x item cb : JSVal) (w : World)
    (hcb : typeOf cb = "function") (hx : typeOf x ≠ "function") :
    (listItemsAuthData [u, pw, cb] = ⟨some u, some pw, none⟩ ∧
      getUserAuthData [u, pw, cb] = ⟨some u, some pw, none⟩ ∧
      getItemAuthData [item, u, pw, cb] = ⟨some u, some pw, none⟩ ∧
      deleteItemAuthData [item, u, pw, cb] = ⟨some u, some pw, none⟩ ∧
      addItemAuthData [item, u, pw, cb] = ⟨some u, some pw, none⟩) ∧
    (listItemsAuthData [x, cb] = ⟨none, none, some x⟩ ∧
      getUserAuthData [x, cb] = ⟨none, none, some x⟩ ∧
      getItemAuthData [item, x, cb] = ⟨none, none, some x⟩ ∧
      deleteItemAuthData [item, x, cb] = ⟨none, none, some x⟩ ∧
      addItemAuthData [item, x, cb] = ⟨none, none, some x⟩) ∧
    resolveAuth w.client (some ⟨none, none, some x⟩)
      = ⟨some w.client.username, some w.client.password, some x⟩ ∧
    (∀ args, args = [u, pw, cb] ∨ args = [x, cb] →
      listItems env args w
        = HTTPGet env ((w.setCallback cb).setUri (str "/clipboard/list.json")).client.target
            (some (listItemsAuthData args)) .listItems
            ((w.setCallback cb).setUri (str "/clipboard/list.json")) ∧
      getUser env args w
        = HTTPGet env ((w.setCallback cb).setUri (str "/user")).client.target
            (some (getUserAuthData args)) .getUser ((w.setCallback cb).setUri (str "/user"))) ∧
    (∀ args, args = [item, u, pw, cb] ∨ args = [item, x, cb] →
      getItem env args w
        = HTTPGet env ((w.setCallback cb).setUri
              (str ("/clipboard/item/" ++ toStr env.funcSrc (item.orElse undefined)))).client.target
            (some (getItemAuthData args)) .getItem
            ((w.setCallback cb).setUri
              (str ("/clipboard/item/" ++ toStr env.funcSrc (item.orElse undefined)))) ∧
      deleteItem env args w
        = HTTPDelete env ((w.setCallback cb).setUri
              (str ("/clipboard/item/" ++ toStr env.funcSrc (item.orElse undefined)))).client.target
            (some (deleteItemAuthData args)) .deleteItem
            ((w.setCallback cb).setUri
              (str ("/clipboard/item/" ++ toStr env.funcSrc (item.orElse undefined)))) ∧
      addItem env args w
        = HTTPPost env ((w.setCallback cb).setUri (str "/clipboard/item")).client.target
            (some (addItemAuthData args)) (obj [("item", item.orElse undefined)]) .addItem
            ((w.setCallback cb).setUri (str "/clipboard/item"))) := by
  refine ⟨?_, ?_, ?_, ?_, ?_⟩
  · simp [listItemsAuthData, getUserAuthData, getItemAuthData, deleteItemAuthData,
      addItemAuthData, arg]
  · simp [listItemsAuthData, getUserAuthData, getItemAuthData, deleteItemAuthData,
      addItemAuthData, arg, hx]
  · simp [resolveAuth, propOf, isNullish]
  · rintro args (rfl | rfl) <;> simp [listItems, getUser, arg, lastArg, hcb]
  · rintro args (rfl | rfl) <;> simp [getItem, deleteItem, addItem, arg, lastArg, hcb]

/-- C5, at a concrete input: the calls `("alice", "secret", f1)` and `("tok", f1)` of
`listItems`. -/
theorem auth_resolution_witness :
    listItemsAuthData [str "alice", str "secret", func 1]
      = ⟨some (str "alice"), some (str "secret"), none⟩ ∧
    listItemsAuthData [str "tok", func 1] = ⟨none, none, some (str "tok")⟩ :=
  ⟨(auth_resolution sampleEnv (str "alice") (str "secret") (str "tok") (str "42") (func 1)
      sampleWorld (by decide) (by decide)).1.1,
   (auth_resolution sampleEnv (str "alice") (str "secret") (str "tok") (str "42") (func 1)
      sampleWorld (by decide) (by decide)).2.1.1⟩

/-! ## C6: `checkTokenValidity` on an answer with code 200 -/

/-- C6 (the code at the failing input): `checkTokenValidity("tok", f1)` on the sample client,
answered by the text `textCode200`, which parses to the object with `code` 200 and no payload.
Nothing is raised: the error thrown by the handler is caught by the `try` of `HTTPRequest`, and
the continuation is called with the error "Invalid JSON received" and `null`. -/
theorem checkTokenValidity_text_violation_caught :
    sampleEnv.parseJSON (str textCode200) = some (obj [("code", num 200)]) ∧
    (respond sampleEnv 0 (.done (str textCode200))
      (call sampleEnv (.checkTokenValidity (str "tok") (func 1)) sampleWorld).2).1 = none ∧
    (respond sampleEnv 0 (.done (str textCode200))
      (call sampleEnv (.checkTokenValidity (str "tok") (func 1)) sampleWorld).2).2.delivered
      = [⟨1, obj [("code", str "UnknownError"), ("message", str "Invalid JSON received")], null⟩] := by
  refine ⟨rfl, by decide, rfl⟩

/-! ## C7 and C8: `listItems` and `addItem` on a successful exchange -/

/-- The request put in flight by a call with the function `func k` as its last argument carries
the closure of the operation, and that closure will call `func k`. -/
theorem call_request (env : Env) (c : Call) (w w1 : World) (p : Pending) (k : Nat)
    (hc : call env c w = (none, w1)) (hp : w1.pending = w.pending ++ [p])
    (hk : c.continuation = func k) :
    p.callback = c.handler ∧ c.handler.target w1 = some (func k) := by
  obtain ⟨⟨opts, hpend⟩, _, _, _, htarget⟩ := call_ok env c w w1 hc
  rw [hp] at hpend
  have := List.append_cancel_left hpend
  simp at this
  exact ⟨by rw [this], by rw [htarget, hk]⟩

theorem listItems_invoke (env : Env) (answer : JSVal) (w : World) (k : Nat)
    (ht : w.globals.callback = some (func k)) (hn : answer.isNullish = false) :
    Handler.invoke env .listItems null answer w
      = (none, { w with
          handled := w.handled ++ [⟨.listItems, null, answer⟩]
          delivered := w.delivered ++
            [if (getPropD answer "payload").truthy
              then ⟨k, null, getPropD (getPropD answer "payload") "items"⟩
              else ⟨k, obj [("http_code", num 500), ("message", str "Did not receive items")],
                null⟩] }) := by
  simp only [Handler.invoke, Handler.run, listItemsHandler, isNull, if_true]
  rw [withProp_of_not_nullish _ _ _ hn]
  split_ifs with h
  · rw [withProp_of_truthy _ _ _ h]
    simp [callGlobal, ht, callFunction]
  · simp [callGlobal, ht, callFunction]

theorem addItem_invoke (env : Env) (answer : JSVal) (w : World) (k : Nat)
    (ht : w.globals.callback = some (func k)) (hn : answer.isNullish = false) :
    Handler.invoke env .addItem null answer w
      = (none, { w with
          handled := w.handled ++ [⟨.addItem, null, answer⟩]
          delivered := w.delivered ++
            [if (getPropD answer "payload").truthy
              then ⟨k, null, getPropD (getPropD answer "payload") "_id"⟩
              else ⟨k, getPropD answer "error", null⟩] }) := by
  simp only [Handler.invoke, Handler.run, addItemHandler, isNull, if_true]
  rw [withProp_of_not_nullish _ _ _ hn]
  split_ifs with h
  · rw [withProp_of_truthy _ _ _ h]
    simp [callGlobal, ht, callFunction]
  · rw [withProp_of_not_nullish _ _ _ hn]
    simp [callGlobal, ht, callFunction]

/-- C7 (claim as stated, refuted): `listItems("tok", f1)` on the sample client, answered by an
object that has a payload, the empty string.  The continuation does not receive
`(null, payload.items)`: it receives the error object and `null`. -/
theorem listItems_empty_payload :
    hasOwnProperty (obj [("payload", str "")]) "payload" = .ok true ∧
    (respond sampleEnv 0 (.done (obj [("payload", str "")]))
      (call sampleEnv (.listItems [str "tok", func 1]) sampleWorld).2).2.delivered
      = [⟨1, obj [("http_code", num 500), ("message", str "Did not receive items")], null⟩] ∧
    ¬ ∃ items, (respond sampleEnv 0 (.done (obj [("payload", str "")]))
      (call sampleEnv (.listItems [str "tok", func 1]) sampleWorld).2).2.delivered
      = [⟨1, null, items⟩] := by
  refine ⟨rfl, rfl, ?_⟩
  rintro ⟨items, h⟩
  have h2 : (respond sampleEnv 0 (.done (obj [("payload", str "")]))
      (call sampleEnv (.listItems [str "tok", func 1]) sampleWorld).2).2.delivered
      = [⟨1, obj [("http_code", num 500), ("message", str "Did not receive items")], null⟩] := rfl
  rw [h2] at h
  simp at h

/-- C7 (amended): `listItems` with the function `func k` as continuation, on a successful
exchange whose answer (the structured body, or the parse of the text body) is not `null` or
`undefined`: nothing is raised; if the payload of the answer is truthy the continuation
receives `(null, payload.items)`; if it is falsy (`undefined`, `null`, `false`, 0 or the empty
string), and in particular if the answer has no `payload` key, the continuation receives the
error object with `http_code` 500 and message "Did not receive items", and `null`. -/
theorem listItems_on_success (env : Env) (args : List JSVal) (k : Nat) (w w1 : World)
    (p : Pending) (data answer : JSVal)
    (hk : lastArg args = func k) (hc : listItems env args w = (none, w1))
    (hp : w1.pending = w.pending ++ [p])
    (ha : (Outcome.done data).answer env = some answer) (hn : answer.isNullish = false) :
    (settle env p (.done data) w1).1 = none ∧
    ((getPropD answer "payload").truthy = true →
      deliveredSince w1 (settle env p (.done data) w1).2
        = [⟨k, null, getPropD (getPropD answer "payload") "items"⟩]) ∧
    ((getPropD answer "payload").truthy = false →
      deliveredSince w1 (settle env p (.done data) w1).2
        = [⟨k, obj [("http_code", num 500), ("message", str "Did not receive items")], null⟩]) ∧
    (answer.hasOwnProperty "payload" = .ok false →
      deliveredSince w1 (settle env p (.done data) w1).2
        = [⟨k, obj [("http_code", num 500), ("message", str "Did not receive items")], null⟩]) := by
  obtain ⟨hpc, ht⟩ := call_request env (.listItems args) w w1 p k hc hp hk
  simp only [Call.handler, Handler.target] at hpc ht
  have hinv := listItems_invoke env answer w1 k ht hn
  have hs : settle env p (.done data) w1 = Handler.invoke env .listItems null answer w1 := by
    simp only [settle, hpc]
    exact done_of_answer env .listItems data answer w1 ha (by rw [hinv])
  rw [hs, hinv]
  refine ⟨rfl, fun h => ?_, fun h => ?_, fun h => ?_⟩
  · simp [deliveredSince, h]
  · simp [deliveredSince, h]
  · simp [deliveredSince, getPropD_of_not_own h, truthy]

/-- C7, at a concrete input: `listItems("tok", f1)` on the sample client, answered by the
structured body with the items `["a"]`. -/
theorem listItems_on_success_witness :
    deliveredSince sampleListed
      (settle sampleEnv sampleListedRequest
        (.done (obj [("payload", obj [("items", arr [str "a"] [])])])) sampleListed).2
      = [⟨1, null, getPropD (getPropD (obj [("payload", obj [("items", arr [str "a"] [])])])
          "payload") "items"⟩] :=
  (listItems_on_success sampleEnv [str "tok", func 1] 1 sampleWorld sampleListed
    sampleListedRequest (obj [("payload", obj [("items", arr [str "a"] [])])])
    (obj [("payload", obj [("items", arr [str "a"] [])])]) rfl rfl rfl rfl rfl).2.1 rfl

/-- C8 (claim as stated, refuted): `addItem("text", "tok", f1)` on the sample client, answered
by an object without payload that carries an error.  The continuation receives the error and
`null`, not `false`. -/
theorem addItem_no_payload_null :
    (respond sampleEnv 0 (.done (obj [("error", obj [("message", str "denied")])]))
      (call sampleEnv (.addItem [str "text", str "tok", func 1]) sampleWorld).2).2.delivered
      = [⟨1, obj [("message", str "denied")], null⟩] ∧
    (respond sampleEnv 0 (.done (obj [("error", obj [("message", str "denied")])]))
      (call sampleEnv (.addItem [str "text", str "tok", func 1]) sampleWorld).2).2.delivered
      ≠ [⟨1, obj [("message", str "denied")], bool false⟩] := by
  refine ⟨rfl, ?_⟩
  intro h
  have h2 : (respond sampleEnv 0 (.done (obj [("error", obj [("message", str "denied")])]))
      (call sampleEnv (.addItem [str "text", str "tok", func 1]) sampleWorld).2).2.delivered
      = [⟨1, obj [("message", str "denied")], null⟩] := rfl
  rw [h2] at h
  simp at h

/-- C8 (amended): `addItem` with the function `func k` as continuation, on a successful exchange
whose answer (the structured body, or the parse of the text body) is not `null` or `undefined`:
nothing is raised; if the payload of the answer is truthy the continuation receives
`(null, payload._id)`; if it is falsy, and in particular if the answer has no `payload` key, the
continuation receives `answer.error` as the error and `null` as the result. -/
theorem addItem_on_success (env : Env) (args : List JSVal) (k : Nat) (w w1 : World)
    (p : Pending) (data answer : JSVal)
    (hk : lastArg args = func k) (hc : addItem env args w = (none, w1))
    (hp : w1.pending = w.pending ++ [p])
    (ha : (Outcome.done data).answer env = some answer) (hn : answer.isNullish = false) :
    (settle env p (.done data) w1).1 = none ∧
    ((getPropD answer "payload").truthy = true →
      deliveredSince w1 (settle env p (.done data) w1).2
        = [⟨k, null, getPropD (getPropD answer "payload") "_id"⟩]) ∧
    ((getPropD answer "payload").truthy = false →
      deliveredSince w1 (settle env p (.done data) w1).2
        = [⟨k, getPropD answer "error", null⟩]) ∧
    (answer.hasOwnProperty "payload" = .ok false →
      deliveredSince w1 (settle env p (.done data) w1).2
        = [⟨k, getPropD answer "error", null⟩]) := by
  obtain ⟨hpc, ht⟩ := call_request env (.addItem args) w w1 p k hc hp hk
  simp only [Call.handler, Handler.target] at hpc ht
  have hinv := addItem_invoke env answer w1 k ht hn
  have hs : settle env p (.done data) w1 = Handler.invoke env .addItem null answer w1 := by
    simp only [settle, hpc]
    exact done_of_answer env .addItem data answer w1 ha (by rw [hinv])
  rw [hs, hinv]
  refine ⟨rfl, fun h => ?_, fun h => ?_, fun h => ?_⟩
  · simp [deliveredSince, h]
  · simp [deliveredSince, h]
  · simp [deliveredSince, getPropD_of_not_own h, truthy]

/-- C8, at a concrete input: `addItem("text", "tok", f1)` on the sample client, answered by the
structured body whose payload has the `_id` "abc123". -/
theorem addItem_on_success_witness :
    deliveredSince (call sampleEnv (.addItem [str "text", str "tok", func 1]) sampleWorld).2
      (settle sampleEnv
        { options :=
            { url := "http://example.org:8080/clipboard/item"
              headers :=
                { acceptVersion := "2.1.0"
                  contentType := "application/json; charset=utf-8"
                  contentLength := 0
                  userAgent := "pastyclient-browser 0.1.0"
                  cache := false
                  authorization := none }
              type := some "POST"
              data := some "" }
          callback := .addItem }
        (.done (obj [("payload", obj [("_id", str "abc123")])]))
        (call sampleEnv (.addItem [str "text", str "tok", func 1]) sampleWorld).2).2
      = [⟨1, null, getPropD (getPropD (obj [("payload", obj [("_id", str "abc123")])])
          "payload") "_id"⟩] :=
  (addItem_on_success sampleEnv [str "text", str "tok", func 1] 1 sampleWorld
    (call sampleEnv (.addItem [str "text", str "tok", func 1]) sampleWorld).2 _
    (obj [("payload", obj [("_id", str "abc123")])])
    (obj [("payload", obj [("_id", str "abc123")])]) rfl rfl rfl rfl rfl).2.1 rfl

/-! ## C9: `checkTokenValidity` on an answer with another code -/

/-- C9 (the code at the failing input): `checkTokenValidity("tok", f1)` on the freshly
constructed sample client, where no request has failed before, answered by the structured body
with `code` 401 and an `error` field.  The handler raises a `ReferenceError` for the identifier
`error` and the continuation is not called. -/
theorem checkTokenValidity_fresh_reference_error :
    sampleWorld.globals.error = none ∧
    (respond sampleEnv 0
      (.done (obj [("code", num 401), ("error", obj [("message", str "Invalid token")])]))
      (call sampleEnv (.checkTokenValidity (str "tok") (func 1)) sampleWorld).2).1
      = some (.referenceError "error") ∧
    (respond sampleEnv 0
      (.done (obj [("code", num 401), ("error", obj [("message", str "Invalid token")])]))
      (call sampleEnv (.checkTokenValidity (str "tok") (func 1)) sampleWorld).2).2.delivered.length
      = 0 := by
  refine ⟨rfl, by decide, rfl⟩

/-! ## C10: the request URL -/

/-- C10 (claim as stated, refuted): `checkUsernameAvailable("bob", f1)` on the sample client
requests the path `/v2.1/server/user/available?username=bob`, not
`/server/user/available?username=bob`. -/
theorem checkUsernameAvailable_versioned_path :
    (call sampleEnv (.checkUsernameAvailable (str "bob") (func 1)) sampleWorld).2.pending.map
        (fun p => p.options.url)
      = ["http://example.org:8080/v2.1/server/user/available?username=bob"] ∧
    (call sampleEnv (.checkUsernameAvailable (str "bob") (func 1)) sampleWorld).2.pending.map
        (fun p => p.options.url)
      ≠ ["http" ++ "://" ++ "example.org" ++ ":" ++ "8080"
          ++ ("/server/user/available?username=" ++ "bob")] := by
  constructor <;> decide

theorem scheme_append (b : Bool) :
    (if b = true then "https://" else "http://")
      = (if b = true then "https" else "http") ++ "://" := by
  cases b <;> decide

/-- C10 (amended): for every operation, the URL of the request handed to the transport is
scheme + "://" + host + ":" + port + path, where the scheme is https exactly when the `ssl` field
of the target is truthy (http otherwise) and the path is `endpointPath`: the path of the
endpoint list, except that `checkUsernameAvailable(u)` requests
`/v2.1/server/user/available?username=` followed by `u`, and that `getItem(id)` and
`deleteItem(id)` request `/clipboard/item/` followed by `id` when `id` is truthy and by
`undefined` otherwise. -/
theorem request_url (env : Env) (c : Call) (w w1 : World) (p : Pending)
    (hc : call env c w = (none, w1)) (hp : w1.pending = w.pending ++ [p]) :
    p.options.url
      = (if w.client.target.ssl.truthy = true then "https" else "http") ++ "://"
        ++ toStr env.funcSrc w.client.target.host ++ ":"
        ++ toStr env.funcSrc w.client.target.port ++ endpointPath env c := by
  rw [← scheme_append]
  cases c <;>
    simp only [call, getServerVersion, listItems, getItem, deleteItem, addItem, requestToken,
      checkTokenValidity, checkUsernameAvailable, getUser, updateUserPassword, deleteUser,
      HTTPGet, HTTPPost, HTTPPut, HTTPDelete] at hc <;>
    (try split at hc) <;>
    (try (exact absurd hc (by simp [usageError]))) <;>
    (rcases HTTPRequest_cases env _ _ _ _ _ _ with h | ⟨b, h⟩ <;> rw [h] at hc <;> simp at hc
     subst hc
     have hq := List.append_cancel_left hp
     simp only [List.cons.injEq, and_true] at hq
     subst hq
     simp only [buildOptions_url, World.setUri, World.setCallback, endpointPath, toStr]) <;>
    (simp only [orElse]; split_ifs <;> rfl)

/-- C10, at a concrete input: `getItem("42", "tok", f1)` on the sample client. -/
theorem request_url_witness :
    "http://example.org:8080/clipboard/item/42"
      = (if sampleWorld.client.target.ssl.truthy = true then "https" else "http") ++ "://"
        ++ toStr sampleEnv.funcSrc sampleWorld.client.target.host ++ ":"
        ++ toStr sampleEnv.funcSrc sampleWorld.client.target.port
        ++ endpointPath sampleEnv (.getItem [str "42", str "tok", func 1]) :=
  request_url sampleEnv (.getItem [str "42", str "tok", func 1]) sampleWorld
    (call sampleEnv (.getItem [str "42", str "tok", func 1]) sampleWorld).2
    { options :=
        { url := "http://example.org:8080/clipboard/item/42"
          headers :=
            { acceptVersion := "2.1.0"
              contentType := "application/json; charset=utf-8"
              contentLength := 0
              userAgent := "pastyclient-browser 0.1.0"
              cache := false
              authorization := none }
          type := some "GET"
          data := none }
      callback := .getItem }
    rfl rfl

/-! ## C11: the Authorization header -/

theorem buildOptions_authorization (env : Env) (t : Target) (m : String) (b : Option String)
    (d : JSVal) : (buildOptions env t m b d).headers.authorization = b := by
  unfold buildOptions
  split_ifs <;> rfl

theorem resolveAuth_token (client : PastyClient) (u pw t1 t2 : Option JSVal) :
    (resolveAuth client (some ⟨u, pw, t1⟩)).user = (resolveAuth client (some ⟨u, pw, t2⟩)).user ∧
    (resolveAuth client (some ⟨u, pw, t1⟩)).password
      = (resolveAuth client (some ⟨u, pw, t2⟩)).password := by
  simp only [resolveAuth, Option.getD_some]
  split_ifs <;> exact ⟨rfl, rfl⟩

/-- C11: in `HTTPRequest`, the user and the password are resolved as the values of the
authentication object when present, and as the username and password configured on the client
when absent, `null` or `undefined`.  If the resolved user is falsy (for a string: empty) the
request is sent without an Authorization header; if it is truthy (for a string: non-empty) and
`btoa` encodes user + ":" + password as `b`, the request is sent with the Authorization header
"Basic " followed by `b` (and if `btoa` rejects the text, no request is sent).  Two calls that
differ only in the token build the same request. -/
theorem authorization_header (env : Env) (t : Target) (m : String) (a : Option AuthData)
    (d : JSVal) (h : Handler) (w : World) :
    (propOf (resolveAuth w.client a).user
        = (if (propOf (a.getD ⟨none, none, none⟩).user).isNullish = true then w.client.username
            else propOf (a.getD ⟨none, none, none⟩).user) ∧
      propOf (resolveAuth w.client a).password
        = (if (propOf (a.getD ⟨none, none, none⟩).password).isNullish = true
            then w.client.password
            else propOf (a.getD ⟨none, none, none⟩).password)) ∧
    ((propOf (resolveAuth w.client a).user).truthy = false →
      ∃ p, HTTPRequest env t m a d h w = (none, { w with pending := w.pending ++ [p] }) ∧
        p.options.headers.authorization = none) ∧
    ((propOf (resolveAuth w.client a).user).truthy = true →
      (∀ b, env.btoa (toStr env.funcSrc (propOf (resolveAuth w.client a).user) ++ ":"
            ++ toStr env.funcSrc (propOf (resolveAuth w.client a).password)) = some b →
        ∃ p, HTTPRequest env t m a d h w = (none, { w with pending := w.pending ++ [p] }) ∧
          p.options.headers.authorization = some ("Basic " ++ b)) ∧
      (env.btoa (toStr env.funcSrc (propOf (resolveAuth w.client a).user) ++ ":"
            ++ toStr env.funcSrc (propOf (resolveAuth w.client a).password)) = none →
        HTTPRequest env t m a d h w = (some .invalidCharacter, w))) ∧
    (∀ s, propOf (resolveAuth w.client a).user = str s →
      ((propOf (resolveAuth w.client a).user).truthy = true ↔ s ≠ "")) ∧
    (∀ u pw t1 t2, HTTPRequest env t m (some ⟨u, pw, t1⟩) d h w
      = HTTPRequest env t m (some ⟨u, pw, t2⟩) d h w) := by
  refine ⟨⟨?_, ?_⟩, ?_, ?_, ?_, ?_⟩
  · simp only [resolveAuth]
    split_ifs <;> simp_all [propOf]
  · simp only [resolveAuth]
    split_ifs <;> simp_all [propOf]
  · intro hf
    exact ⟨⟨buildOptions env t m none d, h⟩, by simp [HTTPRequest, basicAuth, hf],
      buildOptions_authorization env t m none d⟩
  · intro ht
    refine ⟨fun b hb => ?_, fun hb => ?_⟩
    · exact ⟨⟨buildOptions env t m (some ("Basic " ++ b)) d, h⟩,
        by simp [HTTPRequest, basicAuth, ht, hb],
        buildOptions_authorization env t m _ d⟩
    · simp [HTTPRequest, basicAuth, ht, hb]
  · intro s hs
    rw [hs]
    simp [truthy]
  · intro u pw t1 t2
    obtain ⟨hu, hp⟩ := resolveAuth_token w.client u pw t1 t2
    simp only [HTTPRequest, basicAuth, hu, hp]

end Pasty
